import Mathlib

set_option linter.unusedVariables false
set_option maxRecDepth 40000

/-!
# A shallow embedding of the LS-8 CPU emulator (cpu_final.py)

The Python program emulates a small 8-bit register machine: 256 bytes of
RAM, eight registers (register 5 = interrupt mask IM, 6 = interrupt
status IS, 7 = stack pointer SP), a flags register, a program counter,
an interrupt-enable flag, and a fetch-decode-dispatch loop.

Modelling conventions, chosen to mirror Python semantics exactly:

* Python integers are unbounded, so every machine value is an `Int`.
  The emulator never masks to 8 bits, so register and memory cells can
  hold values outside 0..255 (and negative values, e.g. after SUB).
* Python list indexing accepts indices in `[-len, len)`; a negative
  index addresses from the back, anything else raises `IndexError`.
  `pyIdx` reproduces this.
* Python bitwise operators on `int` use infinite two's complement;
  `Int.land`, `Int.lor`, `Int.xor` and `Int.lnot` from Mathlib have
  exactly these semantics (`Int.lnot x = -x - 1`, matching `~x`).
* Raised exceptions are modelled with `Except PyErr`; an uncaught
  exception propagates, which matches monadic error propagation since
  the program installs no handler.
* The wall-clock timer source (`check_timer_interrupt`) and the
  console/trace printing are not modelled: the former depends on real
  time, the latter only writes to stdout.  Neither is needed by the
  verified properties, which concern `handle_interrupts`, the ALU, the
  stack and the dispatch loop.
-/

/-- Exceptions the emulated program can raise. -/
inductive PyErr where
  | indexError : PyErr
  | zeroDivisionError : PyErr
  | valueError : PyErr
  | typeError : PyErr
  | unsupportedALU : PyErr
  | invalidInstruction (ir : Int) (addr : Int) : PyErr
deriving DecidableEq, Repr

/-- Python list index resolution: indices `0 ≤ i < len` address from the
front, indices `-len ≤ i < 0` address from the back (`i + len`), and
anything else raises `IndexError` (`none`). -/
def pyIdx (len : Nat) (i : Int) : Option Nat :=
  if 0 ≤ i ∧ i < (len : Int) then some i.toNat
  else if -(len : Int) ≤ i ∧ i < 0 then some (i + (len : Int)).toNat
  else none

/-- Python list read `xs[i]`. -/
def pyGet (xs : List Int) (i : Int) : Option Int :=
  (pyIdx xs.length i).bind fun n => xs[n]?

/-- Python list element assignment `xs[i] = v`. -/
def pySet (xs : List Int) (i : Int) (v : Int) : Option (List Int) :=
  (pyIdx xs.length i).map fun n => xs.set n v

/-! ## Opcode and register constants (module-level constants of the source) -/

def ADD : Int := 0b10100000
def AND : Int := 0b10101000
def CALL : Int := 0b01010000
def CMP : Int := 0b10100111
def DEC : Int := 0b01100110
def DIV : Int := 0b10100011
def HLT : Int := 0b00000001
def INC : Int := 0b01100101
def IRET : Int := 0b00010011
def JEQ : Int := 0b01010101
def JLE : Int := 0b01011001
def JLT : Int := 0b01011000
def JMP : Int := 0b01010100
def JNE : Int := 0b01010110
def LD : Int := 0b10000011
def LDI : Int := 0b10000010
def MUL : Int := 0b10100010
def OR : Int := 0b10101010
def POP : Int := 0b01000110
def PRA : Int := 0b01001000
def PRN : Int := 0b01000111
def PUSH : Int := 0b01000101
def RET : Int := 0b00010001
def SHL : Int := 0b10101100
/-- The source names this constant `ST`; that name is taken by core Lean. -/
def ST' : Int := 0b10000100
def SUB : Int := 0b10100001
def XOR : Int := 0b10101011

/-- Reserved register numbers. -/
def IM : Int := 5
def IS : Int := 6
def SP : Int := 7

/-- CMP flag bits. -/
def FL_LT : Int := 0b100
def FL_GT : Int := 0b010
def FL_EQ : Int := 0b001

/-- IS flag bits. -/
def IS_TIMER : Int := 0b00000001
def IS_KEYBOARD : Int := 0b00000010

/-- The mutable fields of the Python `CPU` object that the execution
engine reads or writes.  `last_interrupt` (a wall-clock timestamp used
only by the unmodelled timer source) is omitted. -/
structure CPU where
  pc : Int
  fl : Int
  ie : Int
  halted : Bool
  /-- Set once in `__init__` and never read again by the source. -/
  ir_has_set_pc : Bool
  /-- The flag consulted by `run` to decide whether to auto-advance PC;
  assigned each cycle from opcode bit 4 and overridden by the
  conditional-jump handlers when their test fails. -/
  inst_set_pc : Bool
  ram : List Int
  reg : List Int
deriving DecidableEq, Repr

/-- The freshly constructed CPU: 256 zeroed RAM cells, 8 zeroed
registers with SP set to 0xF4, PC and FL zero, interrupts enabled. -/
def CPU.new : CPU where
  pc := 0
  fl := 0
  ie := 1
  halted := false
  ir_has_set_pc := false
  inst_set_pc := false
  ram := List.replicate 256 0
  reg := (List.replicate 8 0).set 7 0xf4

namespace CPU

/-- `ram_write`: `self.ram[mar] = mdr`. -/
def ram_write (s : CPU) (mdr mar : Int) : Except PyErr CPU :=
  match pySet s.ram mar mdr with
  | some r => .ok { s with ram := r }
  | none => .error .indexError

/-- `ram_read`: `return self.ram[mar]`. -/
def ram_read (s : CPU) (mar : Int) : Option Int :=
  pyGet s.ram mar

/-- Modelling helper for the Python statement `self.reg[i] = v`. -/
def reg_assign (s : CPU) (i v : Int) : Except PyErr CPU :=
  match pySet s.reg i v with
  | some r => .ok { s with reg := r }
  | none => .error .indexError

/-- `push_value`: decrement `reg[SP]`, then write the value at the new
`reg[7]` address.  (`self.reg[SP] -= 1; self.ram_write(value, self.reg[7])`;
after the decrement `self.reg[7]` holds `sp - 1`.) -/
def push_value (s : CPU) (value : Int) : Except PyErr CPU :=
  match pyGet s.reg 7 with
  | none => .error .indexError
  | some sp =>
    match pySet s.reg 7 (sp - 1) with
    | none => .error .indexError
    | some reg1 => ram_write { s with reg := reg1 } value (sp - 1)

/-- `pop_value`: read the value at `reg[7]`, then increment `reg[SP]`,
and return the value. -/
def pop_value (s : CPU) : Except PyErr (Int × CPU) :=
  match pyGet s.reg 7 with
  | none => .error .indexError
  | some sp =>
    match pyGet s.ram sp with
    | none => .error .indexError
    | some value =>
      match pySet s.reg 7 (sp + 1) with
      | none => .error .indexError
      | some reg1 => .ok (value, { s with reg := reg1 })

/-- The loop `for i in range(8): if masked_interrupts & (1 << i): ... break`
unrolled: the index of the lowest bit among bits 0..7 that is set in
`masked`, or `none` when bits 0..7 are all clear. -/
def first_bit (masked : Int) : Option Nat :=
  if Int.land masked 1 ≠ 0 then some 0
  else if Int.land masked 2 ≠ 0 then some 1
  else if Int.land masked 4 ≠ 0 then some 2
  else if Int.land masked 8 ≠ 0 then some 3
  else if Int.land masked 16 ≠ 0 then some 4
  else if Int.land masked 32 ≠ 0 then some 5
  else if Int.land masked 64 ≠ 0 then some 6
  else if Int.land masked 128 ≠ 0 then some 7
  else none

/-- `handle_interrupts`: if IE is falsy return unchanged; otherwise mask
IS with IM, and on the lowest pending enabled line `i`: disable IE,
clear bit `i` of IS (`self.reg[IS] &= ~(1 << i)`), push PC, FL and
registers 0..6 (the `for regBit in range(7)` loop is unrolled below),
then jump to the vector stored at `0xf8 + i`. -/
def handle_interrupts (s : CPU) : Except PyErr CPU :=
  if s.ie = 0 then .ok s
  else
    match pyGet s.reg 5, pyGet s.reg 6 with
    | none, _ => .error .indexError
    | _, none => .error .indexError
    | some im, some is0 =>
      match first_bit (Int.land im is0) with
      | none => .ok s
      | some i =>
        let s1 : CPU := { s with ie := 0 }
        match pySet s1.reg 6 (Int.land is0 (Int.lnot ((2 : Int) ^ i))) with
        | none => .error .indexError
        | some reg1 =>
        let s2 : CPU := { s1 with reg := reg1 }
        match s2.push_value s2.pc with
        | .error e => .error e
        | .ok sA =>
        match sA.push_value sA.fl with
        | .error e => .error e
        | .ok sB =>
        -- for regBit in range(7): self.push_value(self.reg[regBit]) -- unrolled
        match pyGet sB.reg 0 with
        | none => .error .indexError
        | some v0 =>
        match sB.push_value v0 with
        | .error e => .error e
        | .ok s3 =>
        match pyGet s3.reg 1 with
        | none => .error .indexError
        | some v1 =>
        match s3.push_value v1 with
        | .error e => .error e
        | .ok s4 =>
        match pyGet s4.reg 2 with
        | none => .error .indexError
        | some v2 =>
        match s4.push_value v2 with
        | .error e => .error e
        | .ok s5 =>
        match pyGet s5.reg 3 with
        | none => .error .indexError
        | some v3 =>
        match s5.push_value v3 with
        | .error e => .error e
        | .ok s6 =>
        match pyGet s6.reg 4 with
        | none => .error .indexError
        | some v4 =>
        match s6.push_value v4 with
        | .error e => .error e
        | .ok s7 =>
        match pyGet s7.reg 5 with
        | none => .error .indexError
        | some v5 =>
        match s7.push_value v5 with
        | .error e => .error e
        | .ok s8 =>
        match pyGet s8.reg 6 with
        | none => .error .indexError
        | some v6 =>
        match s8.push_value v6 with
        | .error e => .error e
        | .ok s9 =>
        match s9.ram_read (0xf8 + (i : Int)) with
        | none => .error .indexError
        | some vec => .ok { s9 with pc := vec }

/-- The ALU.  `op` names are the exact strings dispatched on by the
source.  Branches mirror the `if/elif` chain; an unknown name raises
`Exception("Unsupported ALU operation")`.  Unary ops receive `none` for
`reg_b` (Python passes `None`).  Note on DIV: Python `/=` performs float
true division; no verified claim observes the stored quotient, so it is
modelled as integer division truncated toward zero, while the
zero-divisor exception is modelled faithfully. -/
def alu (s : CPU) (op : String) (reg_a : Int) (reg_b : Option Int) : Except PyErr CPU :=
  if op = "ADD" then
    match reg_b with
    | none => .error .typeError
    | some rb =>
      match pyGet s.reg reg_a, pyGet s.reg rb with
      | some va, some vb => s.reg_assign reg_a (va + vb)
      | _, _ => .error .indexError
  else if op = "AND" then
    match reg_b with
    | none => .error .typeError
    | some rb =>
      match pyGet s.reg reg_a, pyGet s.reg rb with
      | some va, some vb => s.reg_assign reg_a (Int.land va vb)
      | _, _ => .error .indexError
  else if op = "SUB" then
    match reg_b with
    | none => .error .typeError
    | some rb =>
      match pyGet s.reg reg_a, pyGet s.reg rb with
      | some va, some vb => s.reg_assign reg_a (va - vb)
      | _, _ => .error .indexError
  else if op = "MUL" then
    match reg_b with
    | none => .error .typeError
    | some rb =>
      match pyGet s.reg reg_a, pyGet s.reg rb with
      | some va, some vb => s.reg_assign reg_a (va * vb)
      | _, _ => .error .indexError
  else if op = "DIV" then
    match reg_b with
    | none => .error .typeError
    | some rb =>
      match pyGet s.reg reg_a, pyGet s.reg rb with
      | some va, some vb =>
        if vb = 0 then .error .zeroDivisionError
        else s.reg_assign reg_a (Int.tdiv va vb)
      | _, _ => .error .indexError
  else if op = "DEC" then
    match pyGet s.reg reg_a with
    | some va => s.reg_assign reg_a (va - 1)
    | none => .error .indexError
  else if op = "INC" then
    match pyGet s.reg reg_a with
    | some va => s.reg_assign reg_a (va + 1)
    | none => .error .indexError
  else if op = "CMP" then
    -- self.fl &= 0x11111000 : a hexadecimal constant; its bits 0..11 are
    -- zero, so this clears the three CMP flags (and every other low bit).
    let fl1 := Int.land s.fl 0x11111000
    match reg_b with
    | none => .error .typeError
    | some rb =>
      match pyGet s.reg reg_a, pyGet s.reg rb with
      | some va, some vb =>
        if va < vb then .ok { s with fl := Int.lor fl1 FL_LT }
        else if vb < va then .ok { s with fl := Int.lor fl1 FL_GT }
        else .ok { s with fl := Int.lor fl1 FL_EQ }
      | _, _ => .error .indexError
  else if op = "OR" then
    match reg_b with
    | none => .error .typeError
    | some rb =>
      match pyGet s.reg reg_a, pyGet s.reg rb with
      | some va, some vb => s.reg_assign reg_a (Int.lor va vb)
      | _, _ => .error .indexError
  else if op = "SHL" then
    match reg_b with
    | none => .error .typeError
    | some rb =>
      match pyGet s.reg reg_a, pyGet s.reg rb with
      | some va, some vb =>
        -- Python raises ValueError on a negative shift count; otherwise
        -- x << n = x * 2^n exactly (no truncation in the source).
        if vb < 0 then .error .valueError
        else s.reg_assign reg_a (va * (2 : Int) ^ vb.toNat)
      | _, _ => .error .indexError
  else if op = "XOR" then
    match reg_b with
    | none => .error .typeError
    | some rb =>
      match pyGet s.reg reg_a, pyGet s.reg rb with
      | some va, some vb => s.reg_assign reg_a (Int.xor va vb)
      | _, _ => .error .indexError
  else .error .unsupportedALU

/-! ## Instruction handlers -/

/-- LDI: `self.reg[operand_a] = operand_b`. -/
def op_ldi (s : CPU) (operand_a operand_b : Int) : Except PyErr CPU :=
  s.reg_assign operand_a operand_b

/-- PRN prints `self.reg[operand_a]`; only the register read (and its
possible IndexError) is observable in the model. -/
def op_prn (s : CPU) (operand_a operand_b : Int) : Except PyErr CPU :=
  match pyGet s.reg operand_a with
  | some _ => .ok s
  | none => .error .indexError

/-- PRA prints `chr(self.reg[operand_a])`; `chr` raises ValueError
outside `[0, 0x110000)`. -/
def op_pra (s : CPU) (operand_a operand_b : Int) : Except PyErr CPU :=
  match pyGet s.reg operand_a with
  | some va => if va < 0 ∨ 0x110000 ≤ va then .error .valueError else .ok s
  | none => .error .indexError

def op_add (s : CPU) (operand_a operand_b : Int) : Except PyErr CPU :=
  s.alu "ADD" operand_a (some operand_b)

def op_and (s : CPU) (operand_a operand_b : Int) : Except PyErr CPU :=
  s.alu "AND" operand_a (some operand_b)

def op_sub (s : CPU) (operand_a operand_b : Int) : Except PyErr CPU :=
  s.alu "SUB" operand_a (some operand_b)

def op_mul (s : CPU) (operand_a operand_b : Int) : Except PyErr CPU :=
  s.alu "MUL" operand_a (some operand_b)

def op_div (s : CPU) (operand_a operand_b : Int) : Except PyErr CPU :=
  s.alu "DIV" operand_a (some operand_b)

def op_dec (s : CPU) (operand_a operand_b : Int) : Except PyErr CPU :=
  s.alu "DEC" operand_a none

def op_inc (s : CPU) (operand_a operand_b : Int) : Except PyErr CPU :=
  s.alu "INC" operand_a none

def op_or (s : CPU) (operand_a operand_b : Int) : Except PyErr CPU :=
  s.alu "OR" operand_a (some operand_b)

def op_xor (s : CPU) (operand_a operand_b : Int) : Except PyErr CPU :=
  s.alu "XOR" operand_a (some operand_b)

/-- POP: `self.reg[operand_a] = self.pop_value()`. -/
def op_pop (s : CPU) (operand_a operand_b : Int) : Except PyErr CPU :=
  match s.pop_value with
  | .error e => .error e
  | .ok (v, s1) => s1.reg_assign operand_a v

/-- PUSH: `self.push_value(self.reg[operand_a])`. -/
def op_push (s : CPU) (operand_a operand_b : Int) : Except PyErr CPU :=
  match pyGet s.reg operand_a with
  | some v => s.push_value v
  | none => .error .indexError

/-- CALL: push `pc + 2`, then `self.pc = self.reg[operand_a]` (the
register file is read after the push, whose only register effect is on
`reg[7]`). -/
def op_call (s : CPU) (operand_a operand_b : Int) : Except PyErr CPU :=
  match s.push_value (s.pc + 2) with
  | .error e => .error e
  | .ok s1 =>
    match pyGet s1.reg operand_a with
    | some v => .ok { s1 with pc := v }
    | none => .error .indexError

/-- RET: `self.pc = self.pop_value()`. -/
def op_ret (s : CPU) (operand_a operand_b : Int) : Except PyErr CPU :=
  match s.pop_value with
  | .error e => .error e
  | .ok (v, s1) => .ok { s1 with pc := v }

/-- LD: `self.reg[operand_a] = self.ram_read(self.reg[operand_b])`. -/
def op_ld (s : CPU) (operand_a operand_b : Int) : Except PyErr CPU :=
  match pyGet s.reg operand_b with
  | none => .error .indexError
  | some addr =>
    match s.ram_read addr with
    | none => .error .indexError
    | some v => s.reg_assign operand_a v

def op_shl (s : CPU) (operand_a operand_b : Int) : Except PyErr CPU :=
  s.alu "SHL" operand_a (some operand_b)

/-- ST: `self.ram_write(self.reg[operand_b], self.reg[operand_a])`. -/
def op_st (s : CPU) (operand_a operand_b : Int) : Except PyErr CPU :=
  match pyGet s.reg operand_b, pyGet s.reg operand_a with
  | some mdr, some mar => s.ram_write mdr mar
  | _, _ => .error .indexError

/-- JMP: `self.pc = self.reg[operand_a]`. -/
def op_jmp (s : CPU) (operand_a operand_b : Int) : Except PyErr CPU :=
  match pyGet s.reg operand_a with
  | some v => .ok { s with pc := v }
  | none => .error .indexError

/-- JEQ: jump when `self.fl & FL_EQ` is truthy, otherwise suppress the
sets-PC flag so the loop falls through to the next instruction. -/
def op_jeq (s : CPU) (operand_a operand_b : Int) : Except PyErr CPU :=
  if Int.land s.fl FL_EQ ≠ 0 then
    match pyGet s.reg operand_a with
    | some v => .ok { s with pc := v }
    | none => .error .indexError
  else .ok { s with inst_set_pc := false }

/-- JLE: jump when `self.fl & FL_LT or self.fl & FL_EQ` is truthy. -/
def op_jle (s : CPU) (operand_a operand_b : Int) : Except PyErr CPU :=
  if Int.land s.fl FL_LT ≠ 0 ∨ Int.land s.fl FL_EQ ≠ 0 then
    match pyGet s.reg operand_a with
    | some v => .ok { s with pc := v }
    | none => .error .indexError
  else .ok { s with inst_set_pc := false }

/-- JLT: jump when `self.fl & FL_LT` is truthy. -/
def op_jlt (s : CPU) (operand_a operand_b : Int) : Except PyErr CPU :=
  if Int.land s.fl FL_LT ≠ 0 then
    match pyGet s.reg operand_a with
    | some v => .ok { s with pc := v }
    | none => .error .indexError
  else .ok { s with inst_set_pc := false }

/-- JNE: jump when `self.fl & FL_EQ` is falsy. -/
def op_jne (s : CPU) (operand_a operand_b : Int) : Except PyErr CPU :=
  if Int.land s.fl FL_EQ = 0 then
    match pyGet s.reg operand_a with
    | some v => .ok { s with pc := v }
    | none => .error .indexError
  else .ok { s with inst_set_pc := false }

def op_cmp (s : CPU) (operand_a operand_b : Int) : Except PyErr CPU :=
  s.alu "CMP" operand_a (some operand_b)

/-- IRET: pop registers 6 down to 0 (the `for i in range(6, -1, -1)`
loop unrolled), then FL, then PC, then re-enable interrupts. -/
def op_iret (s : CPU) (operand_a operand_b : Int) : Except PyErr CPU :=
  match s.pop_value with
  | .error e => .error e
  | .ok (v6, t6) =>
  match t6.reg_assign 6 v6 with
  | .error e => .error e
  | .ok u6 =>
  match u6.pop_value with
  | .error e => .error e
  | .ok (v5, t5) =>
  match t5.reg_assign 5 v5 with
  | .error e => .error e
  | .ok u5 =>
  match u5.pop_value with
  | .error e => .error e
  | .ok (v4, t4) =>
  match t4.reg_assign 4 v4 with
  | .error e => .error e
  | .ok u4 =>
  match u4.pop_value with
  | .error e => .error e
  | .ok (v3, t3) =>
  match t3.reg_assign 3 v3 with
  | .error e => .error e
  | .ok u3 =>
  match u3.pop_value with
  | .error e => .error e
  | .ok (v2, t2) =>
  match t2.reg_assign 2 v2 with
  | .error e => .error e
  | .ok u2 =>
  match u2.pop_value with
  | .error e => .error e
  | .ok (v1, t1) =>
  match t1.reg_assign 1 v1 with
  | .error e => .error e
  | .ok u1 =>
  match u1.pop_value with
  | .error e => .error e
  | .ok (v0, t0) =>
  match t0.reg_assign 0 v0 with
  | .error e => .error e
  | .ok u0 =>
  match u0.pop_value with
  | .error e => .error e
  | .ok (flv, tf) =>
  match ({ tf with fl := flv } : CPU).pop_value with
  | .error e => .error e
  | .ok (pcv, tp) => .ok { tp with pc := pcv, ie := 1 }

/-- HLT: set the terminal flag checked at the top of each cycle. -/
def op_hlt (s : CPU) (operand_a operand_b : Int) : Except PyErr CPU :=
  .ok { s with halted := true }

/-- The opcode-to-handler mapping (`self.branch_table`). -/
def branch_table (ir : Int) : Option (CPU → Int → Int → Except PyErr CPU) :=
  if ir = ADD then some op_add
  else if ir = AND then some op_and
  else if ir = CALL then some op_call
  else if ir = CMP then some op_cmp
  else if ir = DEC then some op_dec
  else if ir = DIV then some op_div
  else if ir = HLT then some op_hlt
  else if ir = INC then some op_inc
  else if ir = IRET then some op_iret
  else if ir = JEQ then some op_jeq
  else if ir = JLE then some op_jle
  else if ir = JLT then some op_jlt
  else if ir = JMP then some op_jmp
  else if ir = JNE then some op_jne
  else if ir = LD then some op_ld
  else if ir = LDI then some op_ldi
  else if ir = MUL then some op_mul
  else if ir = OR then some op_or
  else if ir = POP then some op_pop
  else if ir = PRA then some op_pra
  else if ir = PRN then some op_prn
  else if ir = PUSH then some op_push
  else if ir = RET then some op_ret
  else if ir = SHL then some op_shl
  else if ir = ST' then some op_st
  else if ir = SUB then some op_sub
  else if ir = XOR then some op_xor
  else none

/-- One fetch-decode-dispatch-advance iteration of the body of
`CPU.run`, after the interrupt poll: read the opcode at PC and both
operand bytes unconditionally, decode the width from bits 7..6 and the
sets-PC flag from bit 4, dispatch through `branch_table` (an absent
opcode raises the fatal invalid-instruction error carrying the opcode
and the faulting address), and finally advance PC by the instruction
width unless `inst_set_pc` is still set.  The diagnostic `trace` call,
which only prints, is omitted. -/
def step_instr (s : CPU) : Except PyErr CPU :=
  match pyGet s.ram s.pc with
  | none => .error .indexError
  | some ir =>
    match s.ram_read (s.pc + 1) with
    | none => .error .indexError
    | some operand_a =>
      match s.ram_read (s.pc + 2) with
      | none => .error .indexError
      | some operand_b =>
        let inst_size : Int := Int.land (Int.shiftRight ir 6) 0b11 + 1
        let s1 : CPU := { s with inst_set_pc := decide (Int.land (Int.shiftRight ir 4) 0b1 = 1) }
        match branch_table ir with
        | none => .error (.invalidInstruction ir s.pc)
        | some handler =>
          match handler s1 operand_a operand_b with
          | .error e => .error e
          | .ok s2 =>
            if s2.inst_set_pc then .ok s2
            else .ok { s2 with pc := s2.pc + inst_size }

/-- One full cycle of the `while not self.halted` loop: poll interrupts,
then fetch-decode-dispatch-advance.  The wall-clock timer poll is the
unmodelled time source and is the identity on every field the engine
dispatches on except `reg[IS]`. -/
def cycle (s : CPU) : Except PyErr CPU :=
  if s.halted then .ok s
  else
    match s.handle_interrupts with
    | .error e => .error e
    | .ok s0 => s0.step_instr

end CPU

/-! ## Sequenced stack operations, used to state the stack round-trip -/

/-- Push each value of `vs` in order with `push_value`. -/
def push_many (s : CPU) (vs : List Int) : Except PyErr CPU :=
  match vs with
  | [] => .ok s
  | v :: rest =>
    match s.push_value v with
    | .error e => .error e
    | .ok s1 => push_many s1 rest

/-- Pop `n` values with `pop_value`, listed in pop order. -/
def pop_many (s : CPU) : Nat → Except PyErr (List Int × CPU)
  | 0 => .ok ([], s)
  | n + 1 =>
    match s.pop_value with
    | .error e => .error e
    | .ok (v, s1) =>
      match pop_many s1 n with
      | .error e => .error e
      | .ok (vs, s2) => .ok (v :: vs, s2)

/-! ## Concrete machine states used as test inputs -/

/-- Build a machine state from the interesting fields. -/
def mkCPU (pc fl ie : Int) (ram reg : List Int) : CPU :=
  { pc := pc
    fl := fl
    ie := ie
    halted := false
    ir_has_set_pc := false
    inst_set_pc := false
    ram := ram
    reg := reg }

/-- 200 in register 0 and 100 in register 1: an ADD input whose
mathematical sum (300) does not fit in a byte. -/
def addInput : CPU := mkCPU 0 0 1 (List.replicate 256 0) [200, 100, 0, 0, 0, 0, 0, 0xf4]

/-- A state about to take a timer interrupt: IE on, IM bit 0 and IS bit
0 set, SP at the initial 0xF4, the line-0 vector pointing at 99. -/
def intrInput : CPU :=
  mkCPU 17 3 1 ((List.replicate 256 0).set 248 99) [10, 11, 12, 13, 14, 1, 1, 244]

/-- A stack pointer at 255: 257 pushes stay inside the Python index
range `[-256, 255]`, but the 257th wraps to a cell already used. -/
def spTop : CPU := mkCPU 0 0 0 (List.replicate 256 0) [0, 0, 0, 0, 0, 0, 0, 255]

/-- 257 values whose first and last entries differ. -/
def vs257 : List Int := 1 :: List.replicate 256 0

/-- A state with nonzero FL and a zeroed stack region, so the stacked FL
an IRET restores differs from the live FL. -/
def iretInput : CPU := mkCPU 0 5 0 (List.replicate 256 0) [0, 0, 0, 0, 0, 0, 0, 100]

/-- A small program image: LDI R2, 77 at address 0. -/
def ldiInput : CPU :=
  mkCPU 0 0 0 ((((List.replicate 256 0).set 0 0b10000010).set 1 2).set 2 77)
    [0, 0, 0, 0, 0, 0, 0, 244]

/-- A JEQ at address 0 with the EQ flag clear. -/
def jeqInput : CPU :=
  mkCPU 0 0 0 (((List.replicate 256 0).set 0 0b01010101).set 1 0) [0, 0, 0, 0, 0, 0, 0, 244]

/-- An opcode byte (0xFF) absent from the branch table, at address 0. -/
def badOpcode : CPU := mkCPU 0 0 0 ((List.replicate 256 0).set 0 0xff) [0, 0, 0, 0, 0, 0, 0, 244]

/-- Two equal registers and stale garbage in FL, for CMP. -/
def cmpInput : CPU := mkCPU 0 7 0 (List.replicate 256 0) [9, 9, 0, 0, 0, 0, 0, 244]

/-- The state after CMP on cmpInput (equal operands): all three prior flag
bits cleared, EQ set. -/
def cmpResult : CPU := mkCPU 0 1 0 (List.replicate 256 0) [9, 9, 0, 0, 0, 0, 0, 244]

/-- Register 0 holds the call target 60. -/
def callInput : CPU := mkCPU 10 0 0 (List.replicate 256 0) [60, 0, 0, 0, 0, 0, 0, 244]

/-- Register 0 holds 42, ready to be pushed. -/
def pushInput : CPU := mkCPU 0 0 0 (List.replicate 256 0) [42, 0, 0, 0, 0, 0, 0, 244]

/-- The machine state after one step of `ldiInput`: PC advanced by 3,
register 2 loaded with 77. -/
def ldiResult : CPU :=
  mkCPU 3 0 0 ((((List.replicate 256 0).set 0 0b10000010).set 1 2).set 2 77)
    [0, 0, 77, 0, 0, 0, 0, 244]

/-- The state `ldiInput` right after the LDI handler ran (before the
loop advances PC): register 2 loaded, PC still 0. -/
def ldiHandled : CPU :=
  mkCPU 0 0 0 ((((List.replicate 256 0).set 0 0b10000010).set 1 2).set 2 77)
    [0, 0, 77, 0, 0, 0, 0, 244]

/-- The state after pushing 42 from pushInput: SP down to 243, the
value parked at cell 243. -/
def pushResult : CPU := mkCPU 0 0 0 ((List.replicate 256 0).set 243 42) [42, 0, 0, 0, 0, 0, 0, 243]

/-! ## Basic lemmas about the Python list primitives -/

theorem pyIdx_of_nonneg {len : Nat} {i : Int} (h0 : 0 ≤ i) (h1 : i < (len : Int)) :
    pyIdx len i = some i.toNat := by
  simp only [pyIdx]
  rw [if_pos ⟨h0, h1⟩]

theorem pyIdx_none {len : Nat} {i : Int} (h : (len : Int) ≤ i ∨ i < -(len : Int)) :
    pyIdx len i = none := by
  simp only [pyIdx]
  rw [if_neg (by omega), if_neg (by omega)]

theorem pyGet_of_nonneg {xs : List Int} {i : Int} (h0 : 0 ≤ i) (h1 : i < (xs.length : Int)) :
    pyGet xs i = xs[i.toNat]? := by
  simp [pyGet, pyIdx_of_nonneg h0 h1]

theorem pySet_of_nonneg {xs : List Int} {i : Int} {v : Int}
    (h0 : 0 ≤ i) (h1 : i < (xs.length : Int)) :
    pySet xs i v = some (xs.set i.toNat v) := by
  simp [pySet, pyIdx_of_nonneg h0 h1]

theorem pyGet_none {xs : List Int} {i : Int}
    (h : (xs.length : Int) ≤ i ∨ i < -(xs.length : Int)) : pyGet xs i = none := by
  simp [pyGet, pyIdx_none h]

theorem pyGet_eq_some_getElem {xs : List Int} {i : Int}
    (h0 : 0 ≤ i) (h1 : i < (xs.length : Int)) :
    ∃ x, pyGet xs i = some x := by
  rw [pyGet_of_nonneg h0 h1]
  exact ⟨_, List.getElem?_eq_getElem (by omega)⟩

/-- Writing back the element already stored leaves a list unchanged. -/
theorem list_set_self {xs : List Int} {k : Nat} {w : Int}
    (h : xs[k]? = some w) : xs.set k w = xs := by
  have hk : k < xs.length := (List.getElem?_eq_some.mp h).1
  apply List.ext_getElem?
  intro n
  rw [List.getElem?_set]
  by_cases hkn : k = n
  · subst hkn
    rw [if_pos rfl, if_pos hk, h]
  · rw [if_neg hkn]

/-! ## Push and pop on in-range stack pointers -/

theorem push_value_spec (s : CPU) (v sp : Int)
    (hreg : s.reg.length = 8) (hram : s.ram.length = 256)
    (hsp : pyGet s.reg 7 = some sp) (h1 : 1 ≤ sp) (h2 : sp ≤ 256) :
    s.push_value v =
      .ok { s with reg := s.reg.set 7 (sp - 1), ram := s.ram.set (sp - 1).toNat v } := by
  have h7 : pySet s.reg 7 (sp - 1) = some (s.reg.set 7 (sp - 1)) := by
    rw [pySet_of_nonneg (by norm_num) (by rw [hreg]; norm_num)]; rfl
  have hw : pySet s.ram (sp - 1) v = some (s.ram.set (sp - 1).toNat v) :=
    pySet_of_nonneg (by omega) (by rw [hram]; omega)
  simp [CPU.push_value, CPU.ram_write, hsp, h7, hw]

theorem pop_value_spec (s : CPU) (v sp : Int)
    (hreg : s.reg.length = 8)
    (hsp : pyGet s.reg 7 = some sp) (h1 : 0 ≤ sp) (h2 : sp < 256)
    (hram : s.ram.length = 256) (hv : s.ram[sp.toNat]? = some v) :
    s.pop_value = .ok (v, { s with reg := s.reg.set 7 (sp + 1) }) := by
  have hrd : pyGet s.ram sp = some v := by
    rw [pyGet_of_nonneg h1 (by rw [hram]; omega)]; exact hv
  have h7 : pySet s.reg 7 (sp + 1) = some (s.reg.set 7 (sp + 1)) := by
    rw [pySet_of_nonneg (by norm_num) (by rw [hreg]; norm_num)]; rfl
  simp [CPU.pop_value, hsp, hrd, h7]

theorem reg_assign_spec (s : CPU) (i v : Int) (hreg : s.reg.length = 8)
    (h0 : 0 ≤ i) (h8 : i < 8) :
    s.reg_assign i v = .ok { s with reg := s.reg.set i.toNat v } := by
  unfold CPU.reg_assign
  rw [pySet_of_nonneg h0 (by rw [hreg]; exact_mod_cast h8)]

/-! ## C6: ALU results are not reduced modulo 256 -/

/-- C6 (code evidence): the claim says ALU results wrap modulo 256 and
never exceed 255, but the source stores the unbounded Python result:
ADD on registers holding 200 and 100 stores 300 (the claim requires
300 mod 256 = 44). -/
theorem c6_alu_no_byte_wrap :
    (addInput.op_add 0 1).map (fun t => pyGet t.reg 0) = .ok (some 300) := rfl

/-! ## C7: unknown opcodes are a fatal error carrying opcode and address -/

/-- C7: on any cycle whose three fetch reads succeed, an opcode byte
absent from the opcode-to-handler mapping makes dispatch terminate with
the fatal invalid-instruction error that carries both the opcode value
and the faulting PC; no handler runs and no successor state is
produced. -/
theorem c7_unknown_opcode (s : CPU) (ir a b : Int)
    (hir : pyGet s.ram s.pc = some ir)
    (ha : s.ram_read (s.pc + 1) = some a)
    (hb : s.ram_read (s.pc + 2) = some b)
    (hmiss : CPU.branch_table ir = none) :
    s.step_instr = .error (.invalidInstruction ir s.pc) := by
  simp [CPU.step_instr, hir, ha, hb, hmiss]

/-- Witness for C7 at a concrete state: opcode 0xFF at address 0. -/
theorem c7_unknown_opcode_witness :
    badOpcode.step_instr = .error (.invalidInstruction 0xff 0) :=
  c7_unknown_opcode badOpcode 0xff 0 0 rfl rfl rfl rfl

/-! ## C9: the fetch reads three bytes unconditionally -/

/-- C9: every cycle reads RAM at PC, PC+1 and PC+2 before dispatching;
with PC between 0 and 253 all three reads are in range, and with
PC at 254 or above the read of PC+2 (or an earlier one) indexes past
address 255, so the cycle ends in IndexError before any dispatch, with
no wraparound to address 0 and no clamping. -/
theorem c9_fetch_three_bytes (s : CPU) (hram : s.ram.length = 256) :
    (0 ≤ s.pc → s.pc ≤ 253 →
      (∃ x, pyGet s.ram s.pc = some x) ∧ (∃ x, s.ram_read (s.pc + 1) = some x) ∧
        (∃ x, s.ram_read (s.pc + 2) = some x))
    ∧ (254 ≤ s.pc → s.ram_read (s.pc + 2) = none ∧ s.step_instr = .error .indexError) := by
  constructor
  · intro h0 h3
    exact ⟨pyGet_eq_some_getElem h0 (by omega),
      pyGet_eq_some_getElem (by omega) (by omega),
      pyGet_eq_some_getElem (by omega) (by omega)⟩
  · intro h
    have h2 : s.ram_read (s.pc + 2) = none := pyGet_none (Or.inl (by
      show (s.ram.length : Int) ≤ s.pc + 2
      omega))
    refine ⟨h2, ?_⟩
    unfold CPU.step_instr
    cases hir : pyGet s.ram s.pc with
    | none => simp
    | some ir =>
      cases hoa : s.ram_read (s.pc + 1) with
      | none => simp [hoa]
      | some a => simp [hoa, h2]

/-- Witness for C9 at two concrete states: the LDI image at PC 0 (all
three reads succeed) and the same memory with PC at 254 (the fetch
fails with IndexError). -/
theorem c9_fetch_three_bytes_witness :
    ((∃ x, pyGet ldiInput.ram ldiInput.pc = some x) ∧
      (∃ x, ldiInput.ram_read (ldiInput.pc + 1) = some x) ∧
      (∃ x, ldiInput.ram_read (ldiInput.pc + 2) = some x)) ∧
    ((mkCPU 254 0 0 (List.replicate 256 0) [0, 0, 0, 0, 0, 0, 0, 244]).ram_read (254 + 2) = none ∧
      (mkCPU 254 0 0 (List.replicate 256 0) [0, 0, 0, 0, 0, 0, 0, 244]).step_instr =
        .error .indexError) :=
  ⟨(c9_fetch_three_bytes ldiInput (by decide)).1 (by decide) (by decide),
   (c9_fetch_three_bytes (mkCPU 254 0 0 (List.replicate 256 0) [0, 0, 0, 0, 0, 0, 0, 244])
      (by decide)).2 (by decide)⟩

/-! ## C5: CMP sets exactly one of LT, GT, EQ -/

/-- C5: executing CMP on any two register values (any prior FL contents)
leaves exactly one of the three flag bits LT (bit 2), GT (bit 1),
EQ (bit 0) set and the other two clear, with LT iff reg a is less,
GT iff greater, EQ iff equal. -/
theorem c5_cmp_exactly_one_flag (s s' : CPU) (a b va vb : Int)
    (hva : pyGet s.reg a = some va) (hvb : pyGet s.reg b = some vb)
    (h : s.op_cmp a b = .ok s') :
    ((s'.fl.testBit 2 = true ↔ va < vb) ∧
     (s'.fl.testBit 1 = true ↔ vb < va) ∧
     (s'.fl.testBit 0 = true ↔ va = vb)) ∧
    (s'.fl.testBit 2).toNat + (s'.fl.testBit 1).toNat + (s'.fl.testBit 0).toNat = 1 := by
  have c0 : (0x11111000 : Int).testBit 0 = false := rfl
  have c1 : (0x11111000 : Int).testBit 1 = false := rfl
  have c2 : (0x11111000 : Int).testBit 2 = false := rfl
  have t40 : (4 : Int).testBit 0 = false := rfl
  have t41 : (4 : Int).testBit 1 = false := rfl
  have t42 : (4 : Int).testBit 2 = true := rfl
  have t20 : (2 : Int).testBit 0 = false := rfl
  have t21 : (2 : Int).testBit 1 = true := rfl
  have t22 : (2 : Int).testBit 2 = false := rfl
  have t10 : (1 : Int).testBit 0 = true := rfl
  have t11 : (1 : Int).testBit 1 = false := rfl
  have t12 : (1 : Int).testBit 2 = false := rfl
  have sa : (("CMP" : String) = "ADD") = False := eq_false (by decide)
  have sb : (("CMP" : String) = "AND") = False := eq_false (by decide)
  have sc : (("CMP" : String) = "SUB") = False := eq_false (by decide)
  have sd : (("CMP" : String) = "MUL") = False := eq_false (by decide)
  have se : (("CMP" : String) = "DIV") = False := eq_false (by decide)
  have sf : (("CMP" : String) = "DEC") = False := eq_false (by decide)
  have sg : (("CMP" : String) = "INC") = False := eq_false (by decide)
  simp only [CPU.op_cmp, CPU.alu, FL_LT, FL_GT, FL_EQ, hva, hvb, sa, sb, sc, sd, se, sf, sg,
    if_false, ite_false, eq_self_iff_true, if_true, ite_true] at h
  rcases lt_trichotomy va vb with hlt | heq | hgt
  · rw [if_pos hlt] at h
    simp only [Except.ok.injEq] at h
    subst h
    refine ⟨⟨?_, ?_, ?_⟩, ?_⟩ <;>
      simp [Int.testBit_lor, Int.testBit_land, c0, c1, c2, t40, t41, t42] <;> omega
  · rw [if_neg (by omega), if_neg (by omega)] at h
    simp only [Except.ok.injEq] at h
    subst h
    refine ⟨⟨?_, ?_, ?_⟩, ?_⟩ <;>
      simp [Int.testBit_lor, Int.testBit_land, c0, c1, c2, t10, t11, t12] <;> omega
  · rw [if_neg (by omega), if_pos hgt] at h
    simp only [Except.ok.injEq] at h
    subst h
    refine ⟨⟨?_, ?_, ?_⟩, ?_⟩ <;>
      simp [Int.testBit_lor, Int.testBit_land, c0, c1, c2, t20, t21, t22] <;> omega

/-- Witness for C5 at a concrete state: CMP of two equal registers (both 9)
with all three flag bits set beforehand leaves exactly the EQ bit set. -/
theorem c5_cmp_exactly_one_flag_witness :
    ((cmpResult.fl.testBit 2 = true ↔ (9 : Int) < 9) ∧
     (cmpResult.fl.testBit 1 = true ↔ (9 : Int) < 9) ∧
     (cmpResult.fl.testBit 0 = true ↔ (9 : Int) = 9)) ∧
    (cmpResult.fl.testBit 2).toNat + (cmpResult.fl.testBit 1).toNat +
      (cmpResult.fl.testBit 0).toNat = 1 :=
  c5_cmp_exactly_one_flag cmpInput cmpResult 0 1 9 9 rfl rfl rfl

/-! ## Frame lemmas: which fields each primitive leaves unchanged -/

theorem reg_assign_frame {s : CPU} {i v : Int} {t : CPU} (h : s.reg_assign i v = .ok t) :
    t.pc = s.pc ∧ t.fl = s.fl ∧ t.ie = s.ie ∧ t.halted = s.halted ∧
      t.inst_set_pc = s.inst_set_pc ∧ t.ram = s.ram := by
  unfold CPU.reg_assign at h
  split at h
  · cases h; exact ⟨rfl, rfl, rfl, rfl, rfl, rfl⟩
  · cases h

theorem ram_write_frame {s : CPU} {mdr mar : Int} {t : CPU} (h : s.ram_write mdr mar = .ok t) :
    t.pc = s.pc ∧ t.fl = s.fl ∧ t.ie = s.ie ∧ t.halted = s.halted ∧
      t.inst_set_pc = s.inst_set_pc ∧ t.reg = s.reg := by
  unfold CPU.ram_write at h
  split at h
  · cases h; exact ⟨rfl, rfl, rfl, rfl, rfl, rfl⟩
  · cases h

theorem push_value_frame {s : CPU} {v : Int} {t : CPU} (h : s.push_value v = .ok t) :
    t.pc = s.pc ∧ t.fl = s.fl ∧ t.ie = s.ie ∧ t.halted = s.halted ∧
      t.inst_set_pc = s.inst_set_pc := by
  unfold CPU.push_value at h
  split at h
  · cases h
  · split at h
    · cases h
    · have := ram_write_frame h
      simp_all

theorem pop_value_frame {s : CPU} {v : Int} {t : CPU} (h : s.pop_value = .ok (v, t)) :
    t.pc = s.pc ∧ t.fl = s.fl ∧ t.ie = s.ie ∧ t.halted = s.halted ∧
      t.inst_set_pc = s.inst_set_pc ∧ t.ram = s.ram := by
  unfold CPU.pop_value at h
  split at h
  · cases h
  · split at h
    · cases h
    · split at h
      · cases h
      · cases h; exact ⟨rfl, rfl, rfl, rfl, rfl, rfl⟩

/-- Every ALU operation leaves PC, IE, halted, the sets-PC flag and RAM
alone, and every ALU operation except CMP leaves FL alone. -/
theorem alu_frame {s : CPU} {op : String} {a : Int} {rb : Option Int} {t : CPU}
    (h : s.alu op a rb = .ok t) :
    t.pc = s.pc ∧ t.ie = s.ie ∧ t.halted = s.halted ∧
      t.inst_set_pc = s.inst_set_pc ∧ t.ram = s.ram ∧ (op ≠ "CMP" → t.fl = s.fl) := by
  unfold CPU.alu at h
  by_cases hADD : op = "ADD"
  · rw [if_pos hADD] at h
    repeat' split at h
    all_goals first
      | exact Except.noConfusion h
      | (have g := reg_assign_frame h; simp_all)
  rw [if_neg hADD] at h
  by_cases hAND : op = "AND"
  · rw [if_pos hAND] at h
    repeat' split at h
    all_goals first
      | exact Except.noConfusion h
      | (have g := reg_assign_frame h; simp_all)
  rw [if_neg hAND] at h
  by_cases hSUB : op = "SUB"
  · rw [if_pos hSUB] at h
    repeat' split at h
    all_goals first
      | exact Except.noConfusion h
      | (have g := reg_assign_frame h; simp_all)
  rw [if_neg hSUB] at h
  by_cases hMUL : op = "MUL"
  · rw [if_pos hMUL] at h
    repeat' split at h
    all_goals first
      | exact Except.noConfusion h
      | (have g := reg_assign_frame h; simp_all)
  rw [if_neg hMUL] at h
  by_cases hDIV : op = "DIV"
  · rw [if_pos hDIV] at h
    repeat' split at h
    all_goals first
      | exact Except.noConfusion h
      | (have g := reg_assign_frame h; simp_all)
  rw [if_neg hDIV] at h
  by_cases hDEC : op = "DEC"
  · rw [if_pos hDEC] at h
    repeat' split at h
    all_goals first
      | exact Except.noConfusion h
      | (have g := reg_assign_frame h; simp_all)
  rw [if_neg hDEC] at h
  by_cases hINC : op = "INC"
  · rw [if_pos hINC] at h
    repeat' split at h
    all_goals first
      | exact Except.noConfusion h
      | (have g := reg_assign_frame h; simp_all)
  rw [if_neg hINC] at h
  by_cases hCMP : op = "CMP"
  · rw [if_pos hCMP] at h
    repeat' split at h
    all_goals first
      | exact Except.noConfusion h
      | (cases h; exact ⟨rfl, rfl, rfl, rfl, rfl, fun hn => absurd hCMP hn⟩)
  rw [if_neg hCMP] at h
  by_cases hOR : op = "OR"
  · rw [if_pos hOR] at h
    repeat' split at h
    all_goals first
      | exact Except.noConfusion h
      | (have g := reg_assign_frame h; simp_all)
  rw [if_neg hOR] at h
  by_cases hSHL : op = "SHL"
  · rw [if_pos hSHL] at h
    repeat' split at h
    all_goals first
      | exact Except.noConfusion h
      | (have g := reg_assign_frame h; simp_all)
  rw [if_neg hSHL] at h
  by_cases hXOR : op = "XOR"
  · rw [if_pos hXOR] at h
    repeat' split at h
    all_goals first
      | exact Except.noConfusion h
      | (have g := reg_assign_frame h; simp_all)
  rw [if_neg hXOR] at h
  exact Except.noConfusion h

/-- Shared shape for the ALU-wrapper handlers other than CMP. -/
theorem alu_wrapper_frame {s : CPU} {op : String} {a : Int} {rb : Option Int} {t : CPU}
    (h : s.alu op a rb = .ok t) (hop : op ≠ "CMP") :
    t.pc = s.pc ∧ t.ie = s.ie ∧ t.halted = s.halted ∧
      t.inst_set_pc = s.inst_set_pc ∧ t.fl = s.fl := by
  have H := alu_frame h
  exact ⟨H.1, H.2.1, H.2.2.1, H.2.2.2.1, H.2.2.2.2.2 hop⟩

theorem op_ldi_frame {s : CPU} {a b : Int} {t : CPU} (h : s.op_ldi a b = .ok t) :
    t.pc = s.pc ∧ t.ie = s.ie ∧ t.halted = s.halted ∧
      t.inst_set_pc = s.inst_set_pc ∧ t.fl = s.fl := by
  have H := reg_assign_frame h
  exact ⟨H.1, H.2.2.1, H.2.2.2.1, H.2.2.2.2.1, H.2.1⟩

theorem op_prn_frame {s : CPU} {a b : Int} {t : CPU} (h : s.op_prn a b = .ok t) :
    t.pc = s.pc ∧ t.ie = s.ie ∧ t.halted = s.halted ∧
      t.inst_set_pc = s.inst_set_pc ∧ t.fl = s.fl := by
  unfold CPU.op_prn at h
  split at h
  · cases h; exact ⟨rfl, rfl, rfl, rfl, rfl⟩
  · cases h

theorem op_pra_frame {s : CPU} {a b : Int} {t : CPU} (h : s.op_pra a b = .ok t) :
    t.pc = s.pc ∧ t.ie = s.ie ∧ t.halted = s.halted ∧
      t.inst_set_pc = s.inst_set_pc ∧ t.fl = s.fl := by
  unfold CPU.op_pra at h
  split at h
  · split at h
    · cases h
    · cases h; exact ⟨rfl, rfl, rfl, rfl, rfl⟩
  · cases h

theorem op_pop_frame {s : CPU} {a b : Int} {t : CPU} (h : s.op_pop a b = .ok t) :
    t.pc = s.pc ∧ t.ie = s.ie ∧ t.halted = s.halted ∧
      t.inst_set_pc = s.inst_set_pc ∧ t.fl = s.fl := by
  unfold CPU.op_pop at h
  split at h
  · cases h
  · next v s1 heq =>
    have H1 := pop_value_frame heq
    have H2 := reg_assign_frame h
    simp_all

theorem op_push_frame {s : CPU} {a b : Int} {t : CPU} (h : s.op_push a b = .ok t) :
    t.pc = s.pc ∧ t.ie = s.ie ∧ t.halted = s.halted ∧
      t.inst_set_pc = s.inst_set_pc ∧ t.fl = s.fl := by
  unfold CPU.op_push at h
  split at h
  · have H := push_value_frame h
    exact ⟨H.1, H.2.2.1, H.2.2.2.1, H.2.2.2.2, H.2.1⟩
  · cases h

theorem op_ld_frame {s : CPU} {a b : Int} {t : CPU} (h : s.op_ld a b = .ok t) :
    t.pc = s.pc ∧ t.ie = s.ie ∧ t.halted = s.halted ∧
      t.inst_set_pc = s.inst_set_pc ∧ t.fl = s.fl := by
  unfold CPU.op_ld at h
  split at h
  · cases h
  · split at h
    · cases h
    · have H := reg_assign_frame h
      exact ⟨H.1, H.2.2.1, H.2.2.2.1, H.2.2.2.2.1, H.2.1⟩

theorem op_st_frame {s : CPU} {a b : Int} {t : CPU} (h : s.op_st a b = .ok t) :
    t.pc = s.pc ∧ t.ie = s.ie ∧ t.halted = s.halted ∧
      t.inst_set_pc = s.inst_set_pc ∧ t.fl = s.fl := by
  unfold CPU.op_st at h
  split at h
  · have H := ram_write_frame h
    exact ⟨H.1, H.2.2.1, H.2.2.2.1, H.2.2.2.2.1, H.2.1⟩
  · cases h

theorem op_hlt_frame {s : CPU} {a b : Int} {t : CPU} (h : s.op_hlt a b = .ok t) :
    t.pc = s.pc ∧ t.ie = s.ie ∧ t.inst_set_pc = s.inst_set_pc ∧ t.fl = s.fl := by
  cases h; exact ⟨rfl, rfl, rfl, rfl⟩

theorem op_jmp_fl_frame {s : CPU} {a b : Int} {t : CPU} (h : s.op_jmp a b = .ok t) :
    t.fl = s.fl ∧ t.ie = s.ie ∧ t.halted = s.halted := by
  unfold CPU.op_jmp at h
  split at h
  · cases h; exact ⟨rfl, rfl, rfl⟩
  · cases h

theorem op_jeq_fl_frame {s : CPU} {a b : Int} {t : CPU} (h : s.op_jeq a b = .ok t) :
    t.fl = s.fl ∧ t.ie = s.ie ∧ t.halted = s.halted := by
  unfold CPU.op_jeq at h
  split at h
  · split at h
    · cases h; exact ⟨rfl, rfl, rfl⟩
    · cases h
  · cases h; exact ⟨rfl, rfl, rfl⟩

theorem op_jne_fl_frame {s : CPU} {a b : Int} {t : CPU} (h : s.op_jne a b = .ok t) :
    t.fl = s.fl ∧ t.ie = s.ie ∧ t.halted = s.halted := by
  unfold CPU.op_jne at h
  split at h
  · split at h
    · cases h; exact ⟨rfl, rfl, rfl⟩
    · cases h
  · cases h; exact ⟨rfl, rfl, rfl⟩

theorem op_jlt_fl_frame {s : CPU} {a b : Int} {t : CPU} (h : s.op_jlt a b = .ok t) :
    t.fl = s.fl ∧ t.ie = s.ie ∧ t.halted = s.halted := by
  unfold CPU.op_jlt at h
  split at h
  · split at h
    · cases h; exact ⟨rfl, rfl, rfl⟩
    · cases h
  · cases h; exact ⟨rfl, rfl, rfl⟩

theorem op_jle_fl_frame {s : CPU} {a b : Int} {t : CPU} (h : s.op_jle a b = .ok t) :
    t.fl = s.fl ∧ t.ie = s.ie ∧ t.halted = s.halted := by
  unfold CPU.op_jle at h
  split at h
  · split at h
    · cases h; exact ⟨rfl, rfl, rfl⟩
    · cases h
  · cases h; exact ⟨rfl, rfl, rfl⟩

theorem op_call_fl_frame {s : CPU} {a b : Int} {t : CPU} (h : s.op_call a b = .ok t) :
    t.fl = s.fl ∧ t.ie = s.ie ∧ t.halted = s.halted := by
  unfold CPU.op_call at h
  split at h
  · cases h
  · next s1 heq =>
    have H := push_value_frame heq
    split at h
    · cases h; simp_all
    · cases h

theorem op_ret_fl_frame {s : CPU} {a b : Int} {t : CPU} (h : s.op_ret a b = .ok t) :
    t.fl = s.fl ∧ t.ie = s.ie ∧ t.halted = s.halted := by
  unfold CPU.op_ret at h
  split at h
  · cases h
  · next v s1 heq =>
    have H := pop_value_frame heq
    cases h; simp_all

/-! ## Inversion of one dispatch step -/

/-- Unfolding of a successful fetch-dispatch-advance cycle: the handler
found in the branch table ran on the state whose sets-PC flag was
assigned from opcode bit 4, and PC then either stayed (flag still set)
or advanced by the width decoded from bits 7..6. -/
theorem step_instr_inv {s s' : CPU} {ir a b : Int}
    {handler : CPU → Int → Int → Except PyErr CPU}
    (hir : pyGet s.ram s.pc = some ir)
    (ha : s.ram_read (s.pc + 1) = some a)
    (hb : s.ram_read (s.pc + 2) = some b)
    (hbt : CPU.branch_table ir = some handler)
    (hstep : s.step_instr = .ok s') :
    ∃ s2, handler { s with inst_set_pc := decide (Int.land (Int.shiftRight ir 4) 0b1 = 1) } a b
        = .ok s2 ∧
      ((s2.inst_set_pc = true ∧ s' = s2) ∨
       (s2.inst_set_pc = false ∧
         s' = { s2 with pc := s2.pc + (Int.land (Int.shiftRight ir 6) 0b11 + 1) })) := by
  unfold CPU.step_instr at hstep
  simp only [hir, ha, hb, hbt] at hstep
  split at hstep
  · exact Except.noConfusion hstep
  · next s2 heq =>
    refine ⟨s2, heq, ?_⟩
    split at hstep
    · next hc =>
      cases hstep
      exact Or.inl ⟨hc, rfl⟩
    · next hc =>
      cases hstep
      exact Or.inr ⟨by simpa using hc, rfl⟩

/-! ## Conditional jumps that decline to jump -/

theorem op_jeq_not_taken {s : CPU} {a b : Int} {t : CPU}
    (h : s.op_jeq a b = .ok t) (hc : Int.land s.fl FL_EQ = 0) :
    t.pc = s.pc ∧ t.inst_set_pc = false := by
  unfold CPU.op_jeq at h
  rw [if_neg (fun hn => hn hc)] at h
  cases h; exact ⟨rfl, rfl⟩

theorem op_jne_not_taken {s : CPU} {a b : Int} {t : CPU}
    (h : s.op_jne a b = .ok t) (hc : Int.land s.fl FL_EQ ≠ 0) :
    t.pc = s.pc ∧ t.inst_set_pc = false := by
  unfold CPU.op_jne at h
  rw [if_neg hc] at h
  cases h; exact ⟨rfl, rfl⟩

theorem op_jlt_not_taken {s : CPU} {a b : Int} {t : CPU}
    (h : s.op_jlt a b = .ok t) (hc : Int.land s.fl FL_LT = 0) :
    t.pc = s.pc ∧ t.inst_set_pc = false := by
  unfold CPU.op_jlt at h
  rw [if_neg (fun hn => hn hc)] at h
  cases h; exact ⟨rfl, rfl⟩

theorem op_jle_not_taken {s : CPU} {a b : Int} {t : CPU}
    (h : s.op_jle a b = .ok t)
    (hc1 : Int.land s.fl FL_LT = 0) (hc2 : Int.land s.fl FL_EQ = 0) :
    t.pc = s.pc ∧ t.inst_set_pc = false := by
  unfold CPU.op_jle at h
  rw [if_neg (fun hn => hn.elim (fun x => x hc1) (fun x => x hc2))] at h
  cases h; exact ⟨rfl, rfl⟩

/-! ## C3: PC advance discipline -/

/-- C3: for a successfully executed valid opcode, PC afterwards equals
its pre-dispatch value plus the decoded width `((opcode >> 6) & 0b11) + 1`
whenever opcode bit 4 is clear, and a conditional jump whose test fails
suppresses the sets-PC flag, so PC still advances by the width (2 for
the jumps) to the next sequential instruction. -/
theorem c3_pc_advance (s s' : CPU) (ir a b : Int)
    (hir : pyGet s.ram s.pc = some ir)
    (hoa : s.ram_read (s.pc + 1) = some a)
    (hob : s.ram_read (s.pc + 2) = some b)
    (hstep : s.step_instr = .ok s') :
    (Int.land (Int.shiftRight ir 4) 0b1 ≠ 1 →
      s'.pc = s.pc + (Int.land (Int.shiftRight ir 6) 0b11 + 1)) ∧
    (ir = JEQ → Int.land s.fl FL_EQ = 0 → s'.pc = s.pc + 2) ∧
    (ir = JNE → Int.land s.fl FL_EQ ≠ 0 → s'.pc = s.pc + 2) ∧
    (ir = JLT → Int.land s.fl FL_LT = 0 → s'.pc = s.pc + 2) ∧
    (ir = JLE → Int.land s.fl FL_LT = 0 → Int.land s.fl FL_EQ = 0 → s'.pc = s.pc + 2) := by
  by_cases hADD : ir = ADD
  · subst hADD
    obtain ⟨s2, hh, hdisj⟩ :=
      step_instr_inv hir hoa hob (show CPU.branch_table ADD = some CPU.op_add from rfl) hstep
    have F := alu_wrapper_frame hh (by decide)
    have hi : s2.inst_set_pc = false := F.2.2.2.1.trans rfl
    rcases hdisj with ⟨htru, _⟩ | ⟨_, hs'⟩
    · rw [hi] at htru; exact Bool.noConfusion htru
    · subst hs'
      refine ⟨fun _ => ?_, fun hx => absurd hx (by decide), fun hx => absurd hx (by decide),
        fun hx => absurd hx (by decide), fun hx => absurd hx (by decide)⟩
      have hpc : s2.pc = s.pc := F.1.trans rfl
      show s2.pc + _ = s.pc + _
      rw [hpc]
  by_cases hAND : ir = AND
  · subst hAND
    obtain ⟨s2, hh, hdisj⟩ :=
      step_instr_inv hir hoa hob (show CPU.branch_table AND = some CPU.op_and from rfl) hstep
    have F := alu_wrapper_frame hh (by decide)
    have hi : s2.inst_set_pc = false := F.2.2.2.1.trans rfl
    rcases hdisj with ⟨htru, _⟩ | ⟨_, hs'⟩
    · rw [hi] at htru; exact Bool.noConfusion htru
    · subst hs'
      refine ⟨fun _ => ?_, fun hx => absurd hx (by decide), fun hx => absurd hx (by decide),
        fun hx => absurd hx (by decide), fun hx => absurd hx (by decide)⟩
      have hpc : s2.pc = s.pc := F.1.trans rfl
      show s2.pc + _ = s.pc + _
      rw [hpc]
  by_cases hCALL : ir = CALL
  · subst hCALL
    exact ⟨fun h14 => absurd rfl h14,
      fun hx => absurd hx (by decide), fun hx => absurd hx (by decide),
      fun hx => absurd hx (by decide), fun hx => absurd hx (by decide)⟩
  by_cases hCMP : ir = CMP
  · subst hCMP
    obtain ⟨s2, hh, hdisj⟩ :=
      step_instr_inv hir hoa hob (show CPU.branch_table CMP = some CPU.op_cmp from rfl) hstep
    have F := alu_frame hh
    have hi : s2.inst_set_pc = false := F.2.2.2.1.trans rfl
    rcases hdisj with ⟨htru, _⟩ | ⟨_, hs'⟩
    · rw [hi] at htru; exact Bool.noConfusion htru
    · subst hs'
      refine ⟨fun _ => ?_, fun hx => absurd hx (by decide), fun hx => absurd hx (by decide),
        fun hx => absurd hx (by decide), fun hx => absurd hx (by decide)⟩
      have hpc : s2.pc = s.pc := F.1.trans rfl
      show s2.pc + _ = s.pc + _
      rw [hpc]
  by_cases hDEC : ir = DEC
  · subst hDEC
    obtain ⟨s2, hh, hdisj⟩ :=
      step_instr_inv hir hoa hob (show CPU.branch_table DEC = some CPU.op_dec from rfl) hstep
    have F := alu_wrapper_frame hh (by decide)
    have hi : s2.inst_set_pc = false := F.2.2.2.1.trans rfl
    rcases hdisj with ⟨htru, _⟩ | ⟨_, hs'⟩
    · rw [hi] at htru; exact Bool.noConfusion htru
    · subst hs'
      refine ⟨fun _ => ?_, fun hx => absurd hx (by decide), fun hx => absurd hx (by decide),
        fun hx => absurd hx (by decide), fun hx => absurd hx (by decide)⟩
      have hpc : s2.pc = s.pc := F.1.trans rfl
      show s2.pc + _ = s.pc + _
      rw [hpc]
  by_cases hDIV : ir = DIV
  · subst hDIV
    obtain ⟨s2, hh, hdisj⟩ :=
      step_instr_inv hir hoa hob (show CPU.branch_table DIV = some CPU.op_div from rfl) hstep
    have F := alu_wrapper_frame hh (by decide)
    have hi : s2.inst_set_pc = false := F.2.2.2.1.trans rfl
    rcases hdisj with ⟨htru, _⟩ | ⟨_, hs'⟩
    · rw [hi] at htru; exact Bool.noConfusion htru
    · subst hs'
      refine ⟨fun _ => ?_, fun hx => absurd hx (by decide), fun hx => absurd hx (by decide),
        fun hx => absurd hx (by decide), fun hx => absurd hx (by decide)⟩
      have hpc : s2.pc = s.pc := F.1.trans rfl
      show s2.pc + _ = s.pc + _
      rw [hpc]
  by_cases hHLT : ir = HLT
  · subst hHLT
    obtain ⟨s2, hh, hdisj⟩ :=
      step_instr_inv hir hoa hob (show CPU.branch_table HLT = some CPU.op_hlt from rfl) hstep
    have F := op_hlt_frame hh
    have hi : s2.inst_set_pc = false := F.2.2.1.trans rfl
    rcases hdisj with ⟨htru, _⟩ | ⟨_, hs'⟩
    · rw [hi] at htru; exact Bool.noConfusion htru
    · subst hs'
      refine ⟨fun _ => ?_, fun hx => absurd hx (by decide), fun hx => absurd hx (by decide),
        fun hx => absurd hx (by decide), fun hx => absurd hx (by decide)⟩
      have hpc : s2.pc = s.pc := F.1.trans rfl
      show s2.pc + _ = s.pc + _
      rw [hpc]
  by_cases hINC : ir = INC
  · subst hINC
    obtain ⟨s2, hh, hdisj⟩ :=
      step_instr_inv hir hoa hob (show CPU.branch_table INC = some CPU.op_inc from rfl) hstep
    have F := alu_wrapper_frame hh (by decide)
    have hi : s2.inst_set_pc = false := F.2.2.2.1.trans rfl
    rcases hdisj with ⟨htru, _⟩ | ⟨_, hs'⟩
    · rw [hi] at htru; exact Bool.noConfusion htru
    · subst hs'
      refine ⟨fun _ => ?_, fun hx => absurd hx (by decide), fun hx => absurd hx (by decide),
        fun hx => absurd hx (by decide), fun hx => absurd hx (by decide)⟩
      have hpc : s2.pc = s.pc := F.1.trans rfl
      show s2.pc + _ = s.pc + _
      rw [hpc]
  by_cases hIRET : ir = IRET
  · subst hIRET
    exact ⟨fun h14 => absurd rfl h14,
      fun hx => absurd hx (by decide), fun hx => absurd hx (by decide),
      fun hx => absurd hx (by decide), fun hx => absurd hx (by decide)⟩
  by_cases hJEQ : ir = JEQ
  · subst hJEQ
    refine ⟨fun h14 => absurd rfl h14, fun _ hcond => ?_, fun hx => absurd hx (by decide), fun hx => absurd hx (by decide), fun hx => absurd hx (by decide)⟩
    obtain ⟨s2, hh, hdisj⟩ :=
      step_instr_inv hir hoa hob (show CPU.branch_table JEQ = some CPU.op_jeq from rfl) hstep
    have NT := op_jeq_not_taken hh hcond
    rcases hdisj with ⟨htru, _⟩ | ⟨_, hs'⟩
    · rw [NT.2] at htru; exact Bool.noConfusion htru
    · subst hs'
      have hpc : s2.pc = s.pc := NT.1.trans rfl
      have hsz : Int.land (Int.shiftRight JEQ 6) 0b11 + 1 = 2 := by decide
      show s2.pc + _ = s.pc + 2
      rw [hpc, hsz]
  by_cases hJLE : ir = JLE
  · subst hJLE
    refine ⟨fun h14 => absurd rfl h14, fun hx => absurd hx (by decide), fun hx => absurd hx (by decide), fun hx => absurd hx (by decide), fun _ hc1 hc2 => ?_⟩
    obtain ⟨s2, hh, hdisj⟩ :=
      step_instr_inv hir hoa hob (show CPU.branch_table JLE = some CPU.op_jle from rfl) hstep
    have NT := op_jle_not_taken hh hc1 hc2
    rcases hdisj with ⟨htru, _⟩ | ⟨_, hs'⟩
    · rw [NT.2] at htru; exact Bool.noConfusion htru
    · subst hs'
      have hpc : s2.pc = s.pc := NT.1.trans rfl
      have hsz : Int.land (Int.shiftRight JLE 6) 0b11 + 1 = 2 := by decide
      show s2.pc + _ = s.pc + 2
      rw [hpc, hsz]
  by_cases hJLT : ir = JLT
  · subst hJLT
    refine ⟨fun h14 => absurd rfl h14, fun hx => absurd hx (by decide), fun hx => absurd hx (by decide), fun _ hcond => ?_, fun hx => absurd hx (by decide)⟩
    obtain ⟨s2, hh, hdisj⟩ :=
      step_instr_inv hir hoa hob (show CPU.branch_table JLT = some CPU.op_jlt from rfl) hstep
    have NT := op_jlt_not_taken hh hcond
    rcases hdisj with ⟨htru, _⟩ | ⟨_, hs'⟩
    · rw [NT.2] at htru; exact Bool.noConfusion htru
    · subst hs'
      have hpc : s2.pc = s.pc := NT.1.trans rfl
      have hsz : Int.land (Int.shiftRight JLT 6) 0b11 + 1 = 2 := by decide
      show s2.pc + _ = s.pc + 2
      rw [hpc, hsz]
  by_cases hJMP : ir = JMP
  · subst hJMP
    exact ⟨fun h14 => absurd rfl h14,
      fun hx => absurd hx (by decide), fun hx => absurd hx (by decide),
      fun hx => absurd hx (by decide), fun hx => absurd hx (by decide)⟩
  by_cases hJNE : ir = JNE
  · subst hJNE
    refine ⟨fun h14 => absurd rfl h14, fun hx => absurd hx (by decide), fun _ hcond => ?_, fun hx => absurd hx (by decide), fun hx => absurd hx (by decide)⟩
    obtain ⟨s2, hh, hdisj⟩ :=
      step_instr_inv hir hoa hob (show CPU.branch_table JNE = some CPU.op_jne from rfl) hstep
    have NT := op_jne_not_taken hh hcond
    rcases hdisj with ⟨htru, _⟩ | ⟨_, hs'⟩
    · rw [NT.2] at htru; exact Bool.noConfusion htru
    · subst hs'
      have hpc : s2.pc = s.pc := NT.1.trans rfl
      have hsz : Int.land (Int.shiftRight JNE 6) 0b11 + 1 = 2 := by decide
      show s2.pc + _ = s.pc + 2
      rw [hpc, hsz]
  by_cases hLD : ir = LD
  · subst hLD
    obtain ⟨s2, hh, hdisj⟩ :=
      step_instr_inv hir hoa hob (show CPU.branch_table LD = some CPU.op_ld from rfl) hstep
    have F := op_ld_frame hh
    have hi : s2.inst_set_pc = false := F.2.2.2.1.trans rfl
    rcases hdisj with ⟨htru, _⟩ | ⟨_, hs'⟩
    · rw [hi] at htru; exact Bool.noConfusion htru
    · subst hs'
      refine ⟨fun _ => ?_, fun hx => absurd hx (by decide), fun hx => absurd hx (by decide),
        fun hx => absurd hx (by decide), fun hx => absurd hx (by decide)⟩
      have hpc : s2.pc = s.pc := F.1.trans rfl
      show s2.pc + _ = s.pc + _
      rw [hpc]
  by_cases hLDI : ir = LDI
  · subst hLDI
    obtain ⟨s2, hh, hdisj⟩ :=
      step_instr_inv hir hoa hob (show CPU.branch_table LDI = some CPU.op_ldi from rfl) hstep
    have F := op_ldi_frame hh
    have hi : s2.inst_set_pc = false := F.2.2.2.1.trans rfl
    rcases hdisj with ⟨htru, _⟩ | ⟨_, hs'⟩
    · rw [hi] at htru; exact Bool.noConfusion htru
    · subst hs'
      refine ⟨fun _ => ?_, fun hx => absurd hx (by decide), fun hx => absurd hx (by decide),
        fun hx => absurd hx (by decide), fun hx => absurd hx (by decide)⟩
      have hpc : s2.pc = s.pc := F.1.trans rfl
      show s2.pc + _ = s.pc + _
      rw [hpc]
  by_cases hMUL : ir = MUL
  · subst hMUL
    obtain ⟨s2, hh, hdisj⟩ :=
      step_instr_inv hir hoa hob (show CPU.branch_table MUL = some CPU.op_mul from rfl) hstep
    have F := alu_wrapper_frame hh (by decide)
    have hi : s2.inst_set_pc = false := F.2.2.2.1.trans rfl
    rcases hdisj with ⟨htru, _⟩ | ⟨_, hs'⟩
    · rw [hi] at htru; exact Bool.noConfusion htru
    · subst hs'
      refine ⟨fun _ => ?_, fun hx => absurd hx (by decide), fun hx => absurd hx (by decide),
        fun hx => absurd hx (by decide), fun hx => absurd hx (by decide)⟩
      have hpc : s2.pc = s.pc := F.1.trans rfl
      show s2.pc + _ = s.pc + _
      rw [hpc]
  by_cases hOR : ir = OR
  · subst hOR
    obtain ⟨s2, hh, hdisj⟩ :=
      step_instr_inv hir hoa hob (show CPU.branch_table OR = some CPU.op_or from rfl) hstep
    have F := alu_wrapper_frame hh (by decide)
    have hi : s2.inst_set_pc = false := F.2.2.2.1.trans rfl
    rcases hdisj with ⟨htru, _⟩ | ⟨_, hs'⟩
    · rw [hi] at htru; exact Bool.noConfusion htru
    · subst hs'
      refine ⟨fun _ => ?_, fun hx => absurd hx (by decide), fun hx => absurd hx (by decide),
        fun hx => absurd hx (by decide), fun hx => absurd hx (by decide)⟩
      have hpc : s2.pc = s.pc := F.1.trans rfl
      show s2.pc + _ = s.pc + _
      rw [hpc]
  by_cases hPOP : ir = POP
  · subst hPOP
    obtain ⟨s2, hh, hdisj⟩ :=
      step_instr_inv hir hoa hob (show CPU.branch_table POP = some CPU.op_pop from rfl) hstep
    have F := op_pop_frame hh
    have hi : s2.inst_set_pc = false := F.2.2.2.1.trans rfl
    rcases hdisj with ⟨htru, _⟩ | ⟨_, hs'⟩
    · rw [hi] at htru; exact Bool.noConfusion htru
    · subst hs'
      refine ⟨fun _ => ?_, fun hx => absurd hx (by decide), fun hx => absurd hx (by decide),
        fun hx => absurd hx (by decide), fun hx => absurd hx (by decide)⟩
      have hpc : s2.pc = s.pc := F.1.trans rfl
      show s2.pc + _ = s.pc + _
      rw [hpc]
  by_cases hPRA : ir = PRA
  · subst hPRA
    obtain ⟨s2, hh, hdisj⟩ :=
      step_instr_inv hir hoa hob (show CPU.branch_table PRA = some CPU.op_pra from rfl) hstep
    have F := op_pra_frame hh
    have hi : s2.inst_set_pc = false := F.2.2.2.1.trans rfl
    rcases hdisj with ⟨htru, _⟩ | ⟨_, hs'⟩
    · rw [hi] at htru; exact Bool.noConfusion htru
    · subst hs'
      refine ⟨fun _ => ?_, fun hx => absurd hx (by decide), fun hx => absurd hx (by decide),
        fun hx => absurd hx (by decide), fun hx => absurd hx (by decide)⟩
      have hpc : s2.pc = s.pc := F.1.trans rfl
      show s2.pc + _ = s.pc + _
      rw [hpc]
  by_cases hPRN : ir = PRN
  · subst hPRN
    obtain ⟨s2, hh, hdisj⟩ :=
      step_instr_inv hir hoa hob (show CPU.branch_table PRN = some CPU.op_prn from rfl) hstep
    have F := op_prn_frame hh
    have hi : s2.inst_set_pc = false := F.2.2.2.1.trans rfl
    rcases hdisj with ⟨htru, _⟩ | ⟨_, hs'⟩
    · rw [hi] at htru; exact Bool.noConfusion htru
    · subst hs'
      refine ⟨fun _ => ?_, fun hx => absurd hx (by decide), fun hx => absurd hx (by decide),
        fun hx => absurd hx (by decide), fun hx => absurd hx (by decide)⟩
      have hpc : s2.pc = s.pc := F.1.trans rfl
      show s2.pc + _ = s.pc + _
      rw [hpc]
  by_cases hPUSH : ir = PUSH
  · subst hPUSH
    obtain ⟨s2, hh, hdisj⟩ :=
      step_instr_inv hir hoa hob (show CPU.branch_table PUSH = some CPU.op_push from rfl) hstep
    have F := op_push_frame hh
    have hi : s2.inst_set_pc = false := F.2.2.2.1.trans rfl
    rcases hdisj with ⟨htru, _⟩ | ⟨_, hs'⟩
    · rw [hi] at htru; exact Bool.noConfusion htru
    · subst hs'
      refine ⟨fun _ => ?_, fun hx => absurd hx (by decide), fun hx => absurd hx (by decide),
        fun hx => absurd hx (by decide), fun hx => absurd hx (by decide)⟩
      have hpc : s2.pc = s.pc := F.1.trans rfl
      show s2.pc + _ = s.pc + _
      rw [hpc]
  by_cases hRET : ir = RET
  · subst hRET
    exact ⟨fun h14 => absurd rfl h14,
      fun hx => absurd hx (by decide), fun hx => absurd hx (by decide),
      fun hx => absurd hx (by decide), fun hx => absurd hx (by decide)⟩
  by_cases hSHL : ir = SHL
  · subst hSHL
    obtain ⟨s2, hh, hdisj⟩ :=
      step_instr_inv hir hoa hob (show CPU.branch_table SHL = some CPU.op_shl from rfl) hstep
    have F := alu_wrapper_frame hh (by decide)
    have hi : s2.inst_set_pc = false := F.2.2.2.1.trans rfl
    rcases hdisj with ⟨htru, _⟩ | ⟨_, hs'⟩
    · rw [hi] at htru; exact Bool.noConfusion htru
    · subst hs'
      refine ⟨fun _ => ?_, fun hx => absurd hx (by decide), fun hx => absurd hx (by decide),
        fun hx => absurd hx (by decide), fun hx => absurd hx (by decide)⟩
      have hpc : s2.pc = s.pc := F.1.trans rfl
      show s2.pc + _ = s.pc + _
      rw [hpc]
  by_cases hSTx : ir = ST'
  · subst hSTx
    obtain ⟨s2, hh, hdisj⟩ :=
      step_instr_inv hir hoa hob (show CPU.branch_table ST' = some CPU.op_st from rfl) hstep
    have F := op_st_frame hh
    have hi : s2.inst_set_pc = false := F.2.2.2.1.trans rfl
    rcases hdisj with ⟨htru, _⟩ | ⟨_, hs'⟩
    · rw [hi] at htru; exact Bool.noConfusion htru
    · subst hs'
      refine ⟨fun _ => ?_, fun hx => absurd hx (by decide), fun hx => absurd hx (by decide),
        fun hx => absurd hx (by decide), fun hx => absurd hx (by decide)⟩
      have hpc : s2.pc = s.pc := F.1.trans rfl
      show s2.pc + _ = s.pc + _
      rw [hpc]
  by_cases hSUB : ir = SUB
  · subst hSUB
    obtain ⟨s2, hh, hdisj⟩ :=
      step_instr_inv hir hoa hob (show CPU.branch_table SUB = some CPU.op_sub from rfl) hstep
    have F := alu_wrapper_frame hh (by decide)
    have hi : s2.inst_set_pc = false := F.2.2.2.1.trans rfl
    rcases hdisj with ⟨htru, _⟩ | ⟨_, hs'⟩
    · rw [hi] at htru; exact Bool.noConfusion htru
    · subst hs'
      refine ⟨fun _ => ?_, fun hx => absurd hx (by decide), fun hx => absurd hx (by decide),
        fun hx => absurd hx (by decide), fun hx => absurd hx (by decide)⟩
      have hpc : s2.pc = s.pc := F.1.trans rfl
      show s2.pc + _ = s.pc + _
      rw [hpc]
  by_cases hXOR : ir = XOR
  · subst hXOR
    obtain ⟨s2, hh, hdisj⟩ :=
      step_instr_inv hir hoa hob (show CPU.branch_table XOR = some CPU.op_xor from rfl) hstep
    have F := alu_wrapper_frame hh (by decide)
    have hi : s2.inst_set_pc = false := F.2.2.2.1.trans rfl
    rcases hdisj with ⟨htru, _⟩ | ⟨_, hs'⟩
    · rw [hi] at htru; exact Bool.noConfusion htru
    · subst hs'
      refine ⟨fun _ => ?_, fun hx => absurd hx (by decide), fun hx => absurd hx (by decide),
        fun hx => absurd hx (by decide), fun hx => absurd hx (by decide)⟩
      have hpc : s2.pc = s.pc := F.1.trans rfl
      show s2.pc + _ = s.pc + _
      rw [hpc]
  have hnone : CPU.branch_table ir = none := by
    unfold CPU.branch_table
    rw [if_neg hADD, if_neg hAND, if_neg hCALL, if_neg hCMP, if_neg hDEC, if_neg hDIV, if_neg hHLT, if_neg hINC, if_neg hIRET, if_neg hJEQ, if_neg hJLE, if_neg hJLT, if_neg hJMP, if_neg hJNE, if_neg hLD, if_neg hLDI, if_neg hMUL, if_neg hOR, if_neg hPOP, if_neg hPRA, if_neg hPRN, if_neg hPUSH, if_neg hRET, if_neg hSHL, if_neg hSTx, if_neg hSUB, if_neg hXOR]
  unfold CPU.step_instr at hstep
  simp only [hir, hoa, hob, hnone] at hstep
  exact Except.noConfusion hstep

/-- Witness for C3 at a concrete cycle: the LDI image advances PC by 3. -/
theorem c3_pc_advance_witness :
    (Int.land (Int.shiftRight LDI 4) 0b1 ≠ 1 →
      ldiResult.pc = ldiInput.pc + (Int.land (Int.shiftRight LDI 6) 0b11 + 1)) ∧
    (LDI = JEQ → Int.land ldiInput.fl FL_EQ = 0 → ldiResult.pc = ldiInput.pc + 2) ∧
    (LDI = JNE → Int.land ldiInput.fl FL_EQ ≠ 0 → ldiResult.pc = ldiInput.pc + 2) ∧
    (LDI = JLT → Int.land ldiInput.fl FL_LT = 0 → ldiResult.pc = ldiInput.pc + 2) ∧
    (LDI = JLE → Int.land ldiInput.fl FL_LT = 0 → Int.land ldiInput.fl FL_EQ = 0 →
      ldiResult.pc = ldiInput.pc + 2) :=
  c3_pc_advance ldiInput ldiResult LDI 2 77 rfl rfl rfl rfl

/-! ## C8: which operations write FL -/

/-- C8 counterexample: the claim says every handler other than CMP
leaves FL unchanged, but IRET is in the branch table and rewrites FL
from the stack: on iretInput (live FL 5, stacked FL 0) it returns FL 0. -/
theorem c8_counterexample :
    CPU.branch_table IRET = some CPU.op_iret ∧
    (iretInput.op_iret 0 0).map (fun t => t.fl) = .ok 0 ∧ iretInput.fl = 5 :=
  ⟨rfl, rfl, rfl⟩

/-- C8 (amended): every handler in the branch table other than CMP and
IRET leaves FL unchanged; CMP rewrites it with comparison flags and
IRET restores it from the stack. -/
theorem c8_fl_frame (ir : Int) (handler : CPU → Int → Int → Except PyErr CPU)
    (s t : CPU) (a b : Int)
    (hbt : CPU.branch_table ir = some handler)
    (hcmp : ir ≠ CMP) (hiret : ir ≠ IRET)
    (h : handler s a b = .ok t) : t.fl = s.fl := by
  unfold CPU.branch_table at hbt
  by_cases hADD : ir = ADD
  · rw [if_pos hADD] at hbt
    injection hbt with hbt
    subst hbt
    exact (alu_wrapper_frame h (by decide)).2.2.2.2
  rw [if_neg hADD] at hbt
  by_cases hAND : ir = AND
  · rw [if_pos hAND] at hbt
    injection hbt with hbt
    subst hbt
    exact (alu_wrapper_frame h (by decide)).2.2.2.2
  rw [if_neg hAND] at hbt
  by_cases hCALL : ir = CALL
  · rw [if_pos hCALL] at hbt
    injection hbt with hbt
    subst hbt
    exact (op_call_fl_frame h).1
  rw [if_neg hCALL] at hbt
  by_cases hCMP : ir = CMP
  · exact absurd hCMP hcmp
  rw [if_neg hCMP] at hbt
  by_cases hDEC : ir = DEC
  · rw [if_pos hDEC] at hbt
    injection hbt with hbt
    subst hbt
    exact (alu_wrapper_frame h (by decide)).2.2.2.2
  rw [if_neg hDEC] at hbt
  by_cases hDIV : ir = DIV
  · rw [if_pos hDIV] at hbt
    injection hbt with hbt
    subst hbt
    exact (alu_wrapper_frame h (by decide)).2.2.2.2
  rw [if_neg hDIV] at hbt
  by_cases hHLT : ir = HLT
  · rw [if_pos hHLT] at hbt
    injection hbt with hbt
    subst hbt
    exact (op_hlt_frame h).2.2.2
  rw [if_neg hHLT] at hbt
  by_cases hINC : ir = INC
  · rw [if_pos hINC] at hbt
    injection hbt with hbt
    subst hbt
    exact (alu_wrapper_frame h (by decide)).2.2.2.2
  rw [if_neg hINC] at hbt
  by_cases hIRET : ir = IRET
  · exact absurd hIRET hiret
  rw [if_neg hIRET] at hbt
  by_cases hJEQ : ir = JEQ
  · rw [if_pos hJEQ] at hbt
    injection hbt with hbt
    subst hbt
    exact (op_jeq_fl_frame h).1
  rw [if_neg hJEQ] at hbt
  by_cases hJLE : ir = JLE
  · rw [if_pos hJLE] at hbt
    injection hbt with hbt
    subst hbt
    exact (op_jle_fl_frame h).1
  rw [if_neg hJLE] at hbt
  by_cases hJLT : ir = JLT
  · rw [if_pos hJLT] at hbt
    injection hbt with hbt
    subst hbt
    exact (op_jlt_fl_frame h).1
  rw [if_neg hJLT] at hbt
  by_cases hJMP : ir = JMP
  · rw [if_pos hJMP] at hbt
    injection hbt with hbt
    subst hbt
    exact (op_jmp_fl_frame h).1
  rw [if_neg hJMP] at hbt
  by_cases hJNE : ir = JNE
  · rw [if_pos hJNE] at hbt
    injection hbt with hbt
    subst hbt
    exact (op_jne_fl_frame h).1
  rw [if_neg hJNE] at hbt
  by_cases hLD : ir = LD
  · rw [if_pos hLD] at hbt
    injection hbt with hbt
    subst hbt
    exact (op_ld_frame h).2.2.2.2
  rw [if_neg hLD] at hbt
  by_cases hLDI : ir = LDI
  · rw [if_pos hLDI] at hbt
    injection hbt with hbt
    subst hbt
    exact (op_ldi_frame h).2.2.2.2
  rw [if_neg hLDI] at hbt
  by_cases hMUL : ir = MUL
  · rw [if_pos hMUL] at hbt
    injection hbt with hbt
    subst hbt
    exact (alu_wrapper_frame h (by decide)).2.2.2.2
  rw [if_neg hMUL] at hbt
  by_cases hOR : ir = OR
  · rw [if_pos hOR] at hbt
    injection hbt with hbt
    subst hbt
    exact (alu_wrapper_frame h (by decide)).2.2.2.2
  rw [if_neg hOR] at hbt
  by_cases hPOP : ir = POP
  · rw [if_pos hPOP] at hbt
    injection hbt with hbt
    subst hbt
    exact (op_pop_frame h).2.2.2.2
  rw [if_neg hPOP] at hbt
  by_cases hPRA : ir = PRA
  · rw [if_pos hPRA] at hbt
    injection hbt with hbt
    subst hbt
    exact (op_pra_frame h).2.2.2.2
  rw [if_neg hPRA] at hbt
  by_cases hPRN : ir = PRN
  · rw [if_pos hPRN] at hbt
    injection hbt with hbt
    subst hbt
    exact (op_prn_frame h).2.2.2.2
  rw [if_neg hPRN] at hbt
  by_cases hPUSH : ir = PUSH
  · rw [if_pos hPUSH] at hbt
    injection hbt with hbt
    subst hbt
    exact (op_push_frame h).2.2.2.2
  rw [if_neg hPUSH] at hbt
  by_cases hRET : ir = RET
  · rw [if_pos hRET] at hbt
    injection hbt with hbt
    subst hbt
    exact (op_ret_fl_frame h).1
  rw [if_neg hRET] at hbt
  by_cases hSHL : ir = SHL
  · rw [if_pos hSHL] at hbt
    injection hbt with hbt
    subst hbt
    exact (alu_wrapper_frame h (by decide)).2.2.2.2
  rw [if_neg hSHL] at hbt
  by_cases hSTx : ir = ST'
  · rw [if_pos hSTx] at hbt
    injection hbt with hbt
    subst hbt
    exact (op_st_frame h).2.2.2.2
  rw [if_neg hSTx] at hbt
  by_cases hSUB : ir = SUB
  · rw [if_pos hSUB] at hbt
    injection hbt with hbt
    subst hbt
    exact (alu_wrapper_frame h (by decide)).2.2.2.2
  rw [if_neg hSUB] at hbt
  by_cases hXOR : ir = XOR
  · rw [if_pos hXOR] at hbt
    injection hbt with hbt
    subst hbt
    exact (alu_wrapper_frame h (by decide)).2.2.2.2
  rw [if_neg hXOR] at hbt
  exact Option.noConfusion hbt

/-- Witness for C8 (amended) at a concrete input: LDI leaves FL at 0. -/
theorem c8_fl_frame_witness : ldiHandled.fl = ldiInput.fl :=
  c8_fl_frame LDI CPU.op_ldi ldiInput ldiHandled 2 77 rfl (by decide) (by decide) rfl

/-! ## C10: CALL and RET round trip -/

/-- C10: with the stack pointer in range and a register operand other
than SP, CALL pushes the return address PC+2 at the new top of stack
and jumps to the register value; a RET run on the resulting state (same
stack depth) pops that return address into PC and restores SP, so PC
lands on the instruction after the 2-byte CALL and the register file is
exactly as before the CALL. -/
theorem c10_call_ret_round_trip (s : CPU) (a b target sp : Int)
    (hreg : s.reg.length = 8) (hram : s.ram.length = 256)
    (hsp : pyGet s.reg 7 = some sp) (h1 : 1 ≤ sp) (h2 : sp ≤ 256)
    (ha0 : 0 ≤ a) (ha7 : a < 7)
    (htarget : pyGet s.reg a = some target) :
    ∃ s1, s.op_call a b = .ok s1 ∧ s1.pc = target ∧
      pyGet s1.reg 7 = some (sp - 1) ∧ s1.ram[(sp - 1).toNat]? = some (s.pc + 2) ∧
      ∀ x y, ∃ s2, s1.op_ret x y = .ok s2 ∧ s2.pc = s.pc + 2 ∧ s2.reg = s.reg ∧
        s2.ram = s1.ram := by
  have hpush := push_value_spec s (s.pc + 2) sp hreg hram hsp h1 h2
  have hlen8 : (s.reg.set 7 (sp - 1)).length = 8 := by rw [List.length_set, hreg]
  have hlen256 : (s.ram.set (sp - 1).toNat (s.pc + 2)).length = 256 := by
    rw [List.length_set, hram]
  have hread : pyGet (s.reg.set 7 (sp - 1)) a = some target := by
    rw [pyGet_of_nonneg ha0 (by rw [hlen8]; omega),
      List.getElem?_set_ne (by omega),
      ← pyGet_of_nonneg ha0 (by rw [hreg]; omega)]
    exact htarget
  have hsp' : pyGet (s.reg.set 7 (sp - 1)) 7 = some (sp - 1) := by
    rw [pyGet_of_nonneg (by norm_num) (by rw [hlen8]; norm_num)]
    show (s.reg.set 7 (sp - 1))[(7 : Nat)]? = some (sp - 1)
    exact List.getElem?_set_self (by omega)
  have hcell : (s.ram.set (sp - 1).toNat (s.pc + 2))[(sp - 1).toNat]? = some (s.pc + 2) :=
    List.getElem?_set_self (by omega)
  refine ⟨{ s with pc := target, reg := s.reg.set 7 (sp - 1), ram := s.ram.set (sp - 1).toNat (s.pc + 2) }, ?_, rfl, hsp', hcell, ?_⟩
  · unfold CPU.op_call
    simp only [hpush, hread]
  · intro x y
    have hpop := pop_value_spec
      { s with pc := target, reg := s.reg.set 7 (sp - 1), ram := s.ram.set (sp - 1).toNat (s.pc + 2) }
      (s.pc + 2) (sp - 1) hlen8 hsp' (by omega) (by omega) hlen256 hcell
    refine ⟨{ s with pc := s.pc + 2, reg := (s.reg.set 7 (sp - 1)).set 7 (sp - 1 + 1), ram := s.ram.set (sp - 1).toNat (s.pc + 2) }, ?_, rfl, ?_, rfl⟩
    · unfold CPU.op_ret
      simp only [hpop]
    · show (s.reg.set 7 (sp - 1)).set 7 (sp - 1 + 1) = s.reg
      have hsp7 : s.reg[(7 : Nat)]? = some sp := by
        have h77 := hsp
        rw [pyGet_of_nonneg (by norm_num) (by rw [hreg]; norm_num)] at h77
        exact h77
      rw [List.set_set, show sp - 1 + 1 = sp from by omega]
      exact list_set_self hsp7

/-- Witness for C10 at a concrete state: CALL through register 0
holding 60, from PC 10, then RET. -/
theorem c10_call_ret_round_trip_witness :
    ∃ s1, callInput.op_call 0 0 = .ok s1 ∧ s1.pc = 60 ∧
      pyGet s1.reg 7 = some (244 - 1) ∧ s1.ram[((244 : Int) - 1).toNat]? = some (callInput.pc + 2) ∧
      ∀ x y, ∃ s2, s1.op_ret x y = .ok s2 ∧ s2.pc = callInput.pc + 2 ∧
        s2.reg = callInput.reg ∧ s2.ram = s1.ram :=
  c10_call_ret_round_trip callInput 0 0 60 244 rfl rfl rfl (by norm_num) (by norm_num)
    (by norm_num) (by norm_num) rfl

/-! ## C4: stack LIFO round trip -/

/-- Popping `n + 1` values is popping `n` values and then one more. -/
theorem pop_many_snoc (n : Nat) :
    ∀ s : CPU, pop_many s (n + 1) =
      match pop_many s n with
      | .error e => .error e
      | .ok (outs, t) =>
        match t.pop_value with
        | .error e => .error e
        | .ok (v, t2) => .ok (outs ++ [v], t2) := by
  induction n with
  | zero =>
    intro s
    cases h : s.pop_value with
    | error e => simp [pop_many, h]
    | ok p => obtain ⟨v, s1⟩ := p; simp [pop_many, h]
  | succ n ih =>
    intro s
    cases h : s.pop_value with
    | error e => simp [pop_many, h]
    | ok p =>
      obtain ⟨v, s1⟩ := p
      have hun : pop_many s (n + 1) =
          match pop_many s1 n with
          | Except.error e => Except.error e
          | Except.ok (vs, s2) => Except.ok (v :: vs, s2) := by
        simp [pop_many, h]
      show (match s.pop_value with
        | Except.error e => Except.error e
        | Except.ok (v, s1) =>
          match pop_many s1 (n + 1) with
          | Except.error e => Except.error e
          | Except.ok (vs, s2) => Except.ok (v :: vs, s2)) = _
      rw [h]
      simp only
      rw [ih s1, hun]
      cases h2 : pop_many s1 n with
      | error e => simp
      | ok q =>
        obtain ⟨outs, t⟩ := q
        cases h3 : t.pop_value with
        | error e => simp [h3]
        | ok r =>
          obtain ⟨v2, t2⟩ := r
          simp [h3]

/-- A sequence of pushes whose cells all lie in the nonnegative index
range: SP ends `n` lower, the pushed values sit in descending cells
below the old SP, and every cell outside that window is untouched. -/
theorem push_many_spec :
    ∀ (vs : List Int) (s : CPU) (sp : Int),
      s.reg.length = 8 → s.ram.length = 256 →
      pyGet s.reg 7 = some sp → 0 ≤ sp - vs.length → sp ≤ 256 →
      ∃ ram1, push_many s vs = .ok { s with reg := s.reg.set 7 (sp - vs.length), ram := ram1 } ∧
        ram1.length = 256 ∧
        (∀ k : Nat, ((k : Int) < sp - vs.length ∨ sp ≤ (k : Int)) → ram1[k]? = s.ram[k]?) ∧
        (∀ j : Nat, j < vs.length → ram1[(sp - 1 - j).toNat]? = vs[j]?) := by
  intro vs
  induction vs with
  | nil =>
    intro s sp hreg hram hsp hlow hhigh
    have h7 : s.reg[(7 : Nat)]? = some sp := by
      have h := hsp
      rw [pyGet_of_nonneg (by norm_num) (by rw [hreg]; norm_num)] at h
      exact h
    refine ⟨s.ram, ?_, hram, fun k _ => rfl, fun j hj => absurd hj (by simp)⟩
    show Except.ok s = _
    have hset : s.reg.set 7 (sp - (([] : List Int).length : Int)) = s.reg := by
      simpa using list_set_self h7
    rw [hset]
  | cons v vs ih =>
    intro s sp hreg hram hsp hlow hhigh
    have hl : (((v :: vs).length : Nat) : Int) = (vs.length : Int) + 1 := by
      simp
    have hpush := push_value_spec s v sp hreg hram hsp (by omega) hhigh
    have hlen8 : (s.reg.set 7 (sp - 1)).length = 8 := by rw [List.length_set, hreg]
    have hlen256 : (s.ram.set (sp - 1).toNat v).length = 256 := by rw [List.length_set, hram]
    have hsp' : pyGet (s.reg.set 7 (sp - 1)) 7 = some (sp - 1) := by
      rw [pyGet_of_nonneg (by norm_num) (by rw [hlen8]; norm_num)]
      show (s.reg.set 7 (sp - 1))[(7 : Nat)]? = some (sp - 1)
      exact List.getElem?_set_self (by omega)
    obtain ⟨ram1, hpm, hlen1, hframe, hcells⟩ :=
      ih { s with reg := s.reg.set 7 (sp - 1), ram := s.ram.set (sp - 1).toNat v }
        (sp - 1) hlen8 hlen256 hsp' (by omega) (by omega)
    refine ⟨ram1, ?_, hlen1, ?_, ?_⟩
    · show (match s.push_value v with
        | Except.error e => Except.error e
        | Except.ok s1 => push_many s1 vs) = _
      rw [hpush]
      simp only
      rw [hpm]
      have hidx : sp - 1 - ((vs.length : Nat) : Int) = sp - (((v :: vs).length : Nat) : Int) := by
        rw [hl]; ring
      simp only [List.set_set, hidx]
    · intro k hk
      rw [hl] at hk
      have hf := hframe k (by omega)
      rw [hf]
      show (s.ram.set (sp - 1).toNat v)[k]? = s.ram[k]?
      exact List.getElem?_set_ne (by omega)
    · intro j hj
      cases j with
      | zero =>
        have hf := hframe (sp - 1).toNat (by
          right
          rw [Int.toNat_of_nonneg (by omega)])
        simp only [Nat.cast_zero, sub_zero, List.getElem?_cons_zero]
        rw [hf]
        show (s.ram.set (sp - 1).toNat v)[(sp - 1).toNat]? = some v
        exact List.getElem?_set_self (by omega)
      | succ j' =>
        have hc := hcells j' (by simpa using hj)
        have hidx : (sp - 1 - ((j' + 1 : Nat) : Int)).toNat = (sp - 1 - 1 - (j' : Int)).toNat := by
          push_cast
          omega
        rw [hidx, List.getElem?_cons_succ]
        exact hc

/-- C4 (amended): push decrements SP then writes at the new SP, pop
reads at SP then increments it; consequently, whenever the n pushed
cells stay inside the nonnegative address range (0 ≤ SP − n and
SP ≤ 256, ruling out the Python negative-index wraparound), n pushes
followed by n pops return the values in reverse (LIFO) order and leave
the register file — in particular SP — exactly as before the pushes.
Without that proviso the claim fails: see the counterexample. -/
theorem c4_stack_lifo_round_trip (vs : List Int) (s s1 : CPU) (sp : Int)
    (hreg : s.reg.length = 8) (hram : s.ram.length = 256)
    (hsp : pyGet s.reg 7 = some sp)
    (hlow : 0 ≤ sp - vs.length) (hhigh : sp ≤ 256)
    (hpm : push_many s vs = .ok s1) :
    pop_many s1 vs.length = .ok (vs.reverse, { s with ram := s1.ram }) := by
  induction vs generalizing s sp s1 with
  | nil =>
    cases hpm
    rfl
  | cons v vs ih =>
    have hl : (((v :: vs).length : Nat) : Int) = (vs.length : Int) + 1 := by simp
    have h7 : s.reg[(7 : Nat)]? = some sp := by
      have h := hsp
      rw [pyGet_of_nonneg (by norm_num) (by rw [hreg]; norm_num)] at h
      exact h
    have hpush := push_value_spec s v sp hreg hram hsp (by omega) hhigh
    have hlen8 : (s.reg.set 7 (sp - 1)).length = 8 := by rw [List.length_set, hreg]
    have hlen256 : (s.ram.set (sp - 1).toNat v).length = 256 := by rw [List.length_set, hram]
    have hsp' : pyGet (s.reg.set 7 (sp - 1)) 7 = some (sp - 1) := by
      rw [pyGet_of_nonneg (by norm_num) (by rw [hlen8]; norm_num)]
      show (s.reg.set 7 (sp - 1))[(7 : Nat)]? = some (sp - 1)
      exact List.getElem?_set_self (by omega)
    rw [show push_many s (v :: vs) = (match s.push_value v with
      | Except.error e => Except.error e
      | Except.ok s0 => push_many s0 vs) from rfl, hpush] at hpm
    simp only at hpm
    obtain ⟨ram1, hpm2, hlen1, hframe, hcells⟩ :=
      push_many_spec vs { s with reg := s.reg.set 7 (sp - 1), ram := s.ram.set (sp - 1).toNat v }
        (sp - 1) hlen8 hlen256 hsp' (by omega) (by omega)
    have IH := ih { s with reg := s.reg.set 7 (sp - 1), ram := s.ram.set (sp - 1).toNat v }
      _ (sp - 1) hlen8 hlen256 hsp' (by omega) (by omega) hpm2
    rw [hpm2] at hpm
    cases hpm
    simp only at hpm2 hframe hcells IH
    rw [show (v :: vs).length = vs.length + 1 from rfl, pop_many_snoc, IH]
    simp only
    have hcell : ram1[(sp - 1).toNat]? = some v := by
      have hf := hframe (sp - 1).toNat (by right; rw [Int.toNat_of_nonneg (by omega)])
      rw [hf]
      exact List.getElem?_set_self (by omega)
    have hpop := pop_value_spec { s with reg := s.reg.set 7 (sp - 1), ram := ram1 } v (sp - 1)
      (by rw [List.length_set, hreg]) hsp' (by omega) (by omega) hlen1 hcell
    rw [hpop]
    simp only
    simp
    exact list_set_self h7

/-- Witness for C4 (amended) at a concrete state: pushing 42 with SP at
244 and popping it back returns 42 and restores the register file. -/
theorem c4_stack_lifo_round_trip_witness :
    pop_many pushResult ([42] : List Int).length =
      .ok (([42] : List Int).reverse, { pushInput with ram := pushResult.ram }) :=
  c4_stack_lifo_round_trip [42] pushInput pushResult 244 rfl rfl rfl (by norm_num)
    (by norm_num) rfl

set_option maxHeartbeats 4000000 in
/-- C4 counterexample: from SP = 255 a run of 257 pushes succeeds
(Python negative indexing keeps every write inside the list), but the
257th push wraps onto the cell of the first one, so the 257 pops do
not return the reverse of the pushed sequence, refuting the claim for
arbitrary machine states.  (SP itself is still restored.) -/
theorem c4_counterexample :
    ((push_many spTop vs257).bind fun s1 => pop_many s1 257).map
      (fun p => p.1 == vs257.reverse) = .ok false := rfl

/-! ## Interrupt dispatch -/

theorem pyGet_set7 {xs : List Int} (h : xs.length = 8) (w : Int) :
    pyGet (xs.set 7 w) 7 = some w := by
  rw [pyGet_of_nonneg (by norm_num) (by simp [List.length_set, h])]
  show (xs.set 7 w)[(7 : Nat)]? = some w
  exact List.getElem?_set_self (by omega)

/-- first_bit only reports lines 0..7. -/
theorem first_bit_lt {m : Int} {i : Nat} (h : CPU.first_bit m = some i) : i < 8 := by
  unfold CPU.first_bit at h
  repeat' split at h
  all_goals cases h
  all_goals omega

/-- The reported line is set in the mask and is the lowest set line. -/
theorem first_bit_lowest {m : Int} {i : Nat} (h : CPU.first_bit m = some i) :
    Int.land m ((2 : Int) ^ i) ≠ 0 ∧ ∀ j : Nat, j < i → Int.land m ((2 : Int) ^ j) = 0 := by
  unfold CPU.first_bit at h
  repeat' split at h
  all_goals cases h
  all_goals constructor
  all_goals try (intro j hj; interval_cases j)
  all_goals try norm_num
  all_goals omega

/-- Full characterization of a successful interrupt dispatch: with IE
truthy, byte-sane SP (9 ≤ SP ≤ 248 keeps all nine pushed cells inside
the stack region, below the vector table), and lowest pending enabled
line i, the handler disables IE, clears bit i of IS, pushes PC, FL and
registers 0..6 (register 6 already cleared) to cells SP-1 .. SP-9,
drops SP by 9 and jumps to the vector at 0xF8 + i. -/
theorem dispatch_spec (s : CPU) (im is0 sp : Int) (i : Nat) (is1 : Int)
    (r0 r1 r2 r3 r4 : Int)
    (hreg : s.reg.length = 8) (hram : s.ram.length = 256)
    (hie : ¬ s.ie = 0)
    (him : pyGet s.reg 5 = some im) (his : pyGet s.reg 6 = some is0)
    (hsp : pyGet s.reg 7 = some sp)
    (hr0 : pyGet s.reg 0 = some r0) (hr1 : pyGet s.reg 1 = some r1)
    (hr2 : pyGet s.reg 2 = some r2) (hr3 : pyGet s.reg 3 = some r3)
    (hr4 : pyGet s.reg 4 = some r4)
    (h9 : 9 ≤ sp) (h248 : sp ≤ 248)
    (hfb : CPU.first_bit (Int.land im is0) = some i)
    (hi8 : i < 8)
    (his1 : Int.land is0 (Int.lnot ((2 : Int) ^ i)) = is1) :
    ∃ vec, s.ram[248 + i]? = some vec ∧
      s.handle_interrupts = .ok { s with pc := vec, ie := 0, reg := (s.reg.set 6 is1).set 7 (sp - 9), ram := (((((((((s.ram.set (sp - 1).toNat s.pc).set (sp - 2).toNat s.fl).set (sp - 3).toNat r0).set (sp - 4).toNat r1).set (sp - 5).toNat r2).set (sp - 6).toNat r3).set (sp - 7).toNat r4).set (sp - 8).toNat im).set (sp - 9).toNat is1) } := by
  obtain ⟨vec, hvec⟩ : ∃ x, s.ram[248 + i]? = some x :=
    ⟨_, List.getElem?_eq_getElem (by omega)⟩
  refine ⟨vec, hvec, ?_⟩
  have hRlen : (s.reg.set 6 is1).length = 8 := by simp [List.length_set, hreg]
  have hset6 : pySet s.reg 6 is1 = some (s.reg.set 6 is1) := by
    rw [pySet_of_nonneg (by norm_num) (by rw [hreg]; norm_num)]
    rfl
  have hsp0 : pyGet (s.reg.set 6 is1) 7 = some sp := by
    rw [pyGet_of_nonneg (by norm_num) (by simp [List.length_set, hreg])]
    show (s.reg.set 6 is1)[(7 : Nat)]? = some sp
    rw [List.getElem?_set_ne (by omega)]
    have h := hsp
    rw [pyGet_of_nonneg (by norm_num) (by rw [hreg]; norm_num)] at h
    exact h
  have hv0 : pyGet ((s.reg.set 6 is1).set 7 (sp - 2)) 0 = some r0 := by
    rw [pyGet_of_nonneg (by norm_num) (by simp [List.length_set, hreg])]
    show ((s.reg.set 6 is1).set 7 (sp - 2))[(0 : Nat)]? = some r0
    rw [List.getElem?_set_ne (by omega), List.getElem?_set_ne (by omega)]
    have h := hr0
    rw [pyGet_of_nonneg (by norm_num) (by rw [hreg]; norm_num)] at h
    exact h
  have hv1 : pyGet ((s.reg.set 6 is1).set 7 (sp - 3)) 1 = some r1 := by
    rw [pyGet_of_nonneg (by norm_num) (by simp [List.length_set, hreg])]
    show ((s.reg.set 6 is1).set 7 (sp - 3))[(1 : Nat)]? = some r1
    rw [List.getElem?_set_ne (by omega), List.getElem?_set_ne (by omega)]
    have h := hr1
    rw [pyGet_of_nonneg (by norm_num) (by rw [hreg]; norm_num)] at h
    exact h
  have hv2 : pyGet ((s.reg.set 6 is1).set 7 (sp - 4)) 2 = some r2 := by
    rw [pyGet_of_nonneg (by norm_num) (by simp [List.length_set, hreg])]
    show ((s.reg.set 6 is1).set 7 (sp - 4))[(2 : Nat)]? = some r2
    rw [List.getElem?_set_ne (by omega), List.getElem?_set_ne (by omega)]
    have h := hr2
    rw [pyGet_of_nonneg (by norm_num) (by rw [hreg]; norm_num)] at h
    exact h
  have hv3 : pyGet ((s.reg.set 6 is1).set 7 (sp - 5)) 3 = some r3 := by
    rw [pyGet_of_nonneg (by norm_num) (by simp [List.length_set, hreg])]
    show ((s.reg.set 6 is1).set 7 (sp - 5))[(3 : Nat)]? = some r3
    rw [List.getElem?_set_ne (by omega), List.getElem?_set_ne (by omega)]
    have h := hr3
    rw [pyGet_of_nonneg (by norm_num) (by rw [hreg]; norm_num)] at h
    exact h
  have hv4 : pyGet ((s.reg.set 6 is1).set 7 (sp - 6)) 4 = some r4 := by
    rw [pyGet_of_nonneg (by norm_num) (by simp [List.length_set, hreg])]
    show ((s.reg.set 6 is1).set 7 (sp - 6))[(4 : Nat)]? = some r4
    rw [List.getElem?_set_ne (by omega), List.getElem?_set_ne (by omega)]
    have h := hr4
    rw [pyGet_of_nonneg (by norm_num) (by rw [hreg]; norm_num)] at h
    exact h
  have hv5 : pyGet ((s.reg.set 6 is1).set 7 (sp - 7)) 5 = some im := by
    rw [pyGet_of_nonneg (by norm_num) (by simp [List.length_set, hreg])]
    show ((s.reg.set 6 is1).set 7 (sp - 7))[(5 : Nat)]? = some im
    rw [List.getElem?_set_ne (by omega), List.getElem?_set_ne (by omega)]
    have h := him
    rw [pyGet_of_nonneg (by norm_num) (by rw [hreg]; norm_num)] at h
    exact h
  have hv6 : pyGet ((s.reg.set 6 is1).set 7 (sp - 8)) 6 = some is1 := by
    rw [pyGet_of_nonneg (by norm_num) (by simp [List.length_set, hreg])]
    show ((s.reg.set 6 is1).set 7 (sp - 8))[(6 : Nat)]? = some is1
    rw [List.getElem?_set_ne (by omega)]
    exact List.getElem?_set_self (by omega)
  have hp1 := push_value_spec { s with ie := 0, reg := (s.reg.set 6 is1) } s.pc sp
    (by simp [List.length_set, hreg]) hram hsp0 (by omega) (by omega)
  have hp2 := push_value_spec { s with ie := 0, reg := (s.reg.set 6 is1).set 7 (sp - 1), ram := (s.ram.set (sp - 1).toNat s.pc) } s.fl (sp - 1)
    (by simp [List.length_set, hreg]) (by simp [List.length_set, hram]) (pyGet_set7 hRlen (sp - 1))
    (by omega) (by omega)
  have hp3 := push_value_spec { s with ie := 0, reg := (s.reg.set 6 is1).set 7 (sp - 2), ram := ((s.ram.set (sp - 1).toNat s.pc).set (sp - 2).toNat s.fl) } r0 (sp - 2)
    (by simp [List.length_set, hreg]) (by simp [List.length_set, hram]) (pyGet_set7 hRlen (sp - 2))
    (by omega) (by omega)
  have hp4 := push_value_spec { s with ie := 0, reg := (s.reg.set 6 is1).set 7 (sp - 3), ram := (((s.ram.set (sp - 1).toNat s.pc).set (sp - 2).toNat s.fl).set (sp - 3).toNat r0) } r1 (sp - 3)
    (by simp [List.length_set, hreg]) (by simp [List.length_set, hram]) (pyGet_set7 hRlen (sp - 3))
    (by omega) (by omega)
  have hp5 := push_value_spec { s with ie := 0, reg := (s.reg.set 6 is1).set 7 (sp - 4), ram := ((((s.ram.set (sp - 1).toNat s.pc).set (sp - 2).toNat s.fl).set (sp - 3).toNat r0).set (sp - 4).toNat r1) } r2 (sp - 4)
    (by simp [List.length_set, hreg]) (by simp [List.length_set, hram]) (pyGet_set7 hRlen (sp - 4))
    (by omega) (by omega)
  have hp6 := push_value_spec { s with ie := 0, reg := (s.reg.set 6 is1).set 7 (sp - 5), ram := (((((s.ram.set (sp - 1).toNat s.pc).set (sp - 2).toNat s.fl).set (sp - 3).toNat r0).set (sp - 4).toNat r1).set (sp - 5).toNat r2) } r3 (sp - 5)
    (by simp [List.length_set, hreg]) (by simp [List.length_set, hram]) (pyGet_set7 hRlen (sp - 5))
    (by omega) (by omega)
  have hp7 := push_value_spec { s with ie := 0, reg := (s.reg.set 6 is1).set 7 (sp - 6), ram := ((((((s.ram.set (sp - 1).toNat s.pc).set (sp - 2).toNat s.fl).set (sp - 3).toNat r0).set (sp - 4).toNat r1).set (sp - 5).toNat r2).set (sp - 6).toNat r3) } r4 (sp - 6)
    (by simp [List.length_set, hreg]) (by simp [List.length_set, hram]) (pyGet_set7 hRlen (sp - 6))
    (by omega) (by omega)
  have hp8 := push_value_spec { s with ie := 0, reg := (s.reg.set 6 is1).set 7 (sp - 7), ram := (((((((s.ram.set (sp - 1).toNat s.pc).set (sp - 2).toNat s.fl).set (sp - 3).toNat r0).set (sp - 4).toNat r1).set (sp - 5).toNat r2).set (sp - 6).toNat r3).set (sp - 7).toNat r4) } im (sp - 7)
    (by simp [List.length_set, hreg]) (by simp [List.length_set, hram]) (pyGet_set7 hRlen (sp - 7))
    (by omega) (by omega)
  have hp9 := push_value_spec { s with ie := 0, reg := (s.reg.set 6 is1).set 7 (sp - 8), ram := ((((((((s.ram.set (sp - 1).toNat s.pc).set (sp - 2).toNat s.fl).set (sp - 3).toNat r0).set (sp - 4).toNat r1).set (sp - 5).toNat r2).set (sp - 6).toNat r3).set (sp - 7).toNat r4).set (sp - 8).toNat im) } is1 (sp - 8)
    (by simp [List.length_set, hreg]) (by simp [List.length_set, hram]) (pyGet_set7 hRlen (sp - 8))
    (by omega) (by omega)
  have hvr : pyGet ((((((((((s.ram.set (sp - 1).toNat s.pc).set (sp - 2).toNat s.fl).set (sp - 3).toNat r0).set (sp - 4).toNat r1).set (sp - 5).toNat r2).set (sp - 6).toNat r3).set (sp - 7).toNat r4).set (sp - 8).toNat im).set (sp - 9).toNat is1)) (0xf8 + (i : Int)) = some vec := by
    rw [pyGet_of_nonneg (by omega) (by simp [List.length_set, hram]; omega)]
    rw [show ((0xf8 : Int) + (i : Int)).toNat = 248 + i from by omega]
    rw [List.getElem?_set_ne (by omega), List.getElem?_set_ne (by omega), List.getElem?_set_ne (by omega), List.getElem?_set_ne (by omega), List.getElem?_set_ne (by omega), List.getElem?_set_ne (by omega), List.getElem?_set_ne (by omega), List.getElem?_set_ne (by omega), List.getElem?_set_ne (by omega)]
    exact hvec
  unfold CPU.handle_interrupts
  rw [if_neg hie]
  simp only [him, his, hfb, his1, hset6]
  simp only [hp1, List.set_set]
  simp only [hp2, List.set_set]
  rw [show sp - 1 - 1 = sp - 2 from by ring]
  simp only [hv0, hp3, List.set_set]
  rw [show sp - 2 - 1 = sp - 3 from by ring]
  simp only [hv1, hp4, List.set_set]
  rw [show sp - 3 - 1 = sp - 4 from by ring]
  simp only [hv2, hp5, List.set_set]
  rw [show sp - 4 - 1 = sp - 5 from by ring]
  simp only [hv3, hp6, List.set_set]
  rw [show sp - 5 - 1 = sp - 6 from by ring]
  simp only [hv4, hp7, List.set_set]
  rw [show sp - 6 - 1 = sp - 7 from by ring]
  simp only [hv5, hp8, List.set_set]
  rw [show sp - 7 - 1 = sp - 8 from by ring]
  simp only [hv6, hp9, List.set_set]
  rw [show sp - 8 - 1 = sp - 9 from by ring]
  simp only [CPU.ram_read, hvr]

theorem int_testBit_natCast (m j : Nat) : Int.testBit ((m : Nat) : Int) j = Nat.testBit m j :=
  rfl

theorem int_two_pow_natCast (i : Nat) : ((2 : Int) ^ i) = ((2 ^ i : Nat) : Int) := by
  push_cast
  ring

theorem land_nonneg_of_nonneg {x y : Int} (hx : 0 ≤ x) (hy : 0 ≤ y) :
    0 ≤ Int.land x y := by
  obtain ⟨m, rfl⟩ : ∃ m : Nat, x = (m : Int) := ⟨x.toNat, (Int.toNat_of_nonneg hx).symm⟩
  obtain ⟨n, rfl⟩ : ∃ n : Nat, y = (n : Int) := ⟨y.toNat, (Int.toNat_of_nonneg hy).symm⟩
  show 0 ≤ (((m &&& n : Nat) : Nat) : Int)
  exact Int.natCast_nonneg _

/-- For nonnegative integers, testing a bit with a power-of-two mask is
the same as testBit. -/
theorem land_two_pow_ne_zero {x : Int} (hx : 0 ≤ x) (i : Nat) :
    Int.land x ((2 : Int) ^ i) ≠ 0 ↔ x.testBit i = true := by
  obtain ⟨m, rfl⟩ : ∃ m : Nat, x = (m : Int) := ⟨x.toNat, (Int.toNat_of_nonneg hx).symm⟩
  rw [int_two_pow_natCast]
  show (((m &&& 2 ^ i : Nat) : Nat) : Int) ≠ 0 ↔ Nat.testBit m i = true
  rw [Nat.and_two_pow]
  cases h : m.testBit i <;> simp [h]

/-- Clearing bit i with `x &= ~(1 << i)` in terms of testBit. -/
theorem clear_bit_testBit (is0 : Int) (i j : Nat) :
    Int.testBit (Int.land is0 (Int.lnot ((2 : Int) ^ i))) j =
      (Int.testBit is0 j && !(decide (i = j))) := by
  rw [Int.testBit_land, Int.testBit_lnot, int_two_pow_natCast, int_testBit_natCast,
    Nat.testBit_two_pow]

/-- When the loop finds no line, bits 0..7 of the mask are all clear. -/
theorem first_bit_none {m : Int} (h : CPU.first_bit m = none) :
    ∀ j : Nat, j < 8 → Int.land m ((2 : Int) ^ j) = 0 := by
  unfold CPU.first_bit at h
  repeat' split at h
  all_goals first
    | exact Option.noConfusion h
    | (intro j hj
       interval_cases j <;> norm_num <;> omega)

/-- A nonzero byte-range mask has a lowest set line among bits 0..7. -/
theorem first_bit_isSome {m : Int} (h0 : 0 ≤ m) (h255 : m ≤ 255) (hnz : m ≠ 0) :
    ∃ i, CPU.first_bit m = some i := by
  cases hfb : CPU.first_bit m with
  | some i => exact ⟨i, rfl⟩
  | none =>
    exfalso
    obtain ⟨n, rfl⟩ : ∃ n : Nat, m = (n : Int) := ⟨m.toNat, (Int.toNat_of_nonneg h0).symm⟩
    have hall := first_bit_none hfb
    apply hnz
    show ((n : Nat) : Int) = ((0 : Nat) : Int)
    congr 1
    apply Nat.eq_of_testBit_eq
    intro j
    rw [Nat.zero_testBit]
    by_cases hj : j < 8
    · have hz := hall j hj
      rw [int_two_pow_natCast] at hz
      have h2 : (n &&& 2 ^ j) = 0 := by
        have h3 : (((n &&& 2 ^ j : Nat) : Nat) : Int) = 0 := hz
        exact_mod_cast h3
      rw [Nat.and_two_pow] at h2
      cases hb : n.testBit j
      · rfl
      · rw [hb] at h2
        simp at h2
    · apply Nat.testBit_lt_two_pow
      calc n ≤ 255 := by exact_mod_cast h255
      _ < 2 ^ j := by
        have hle : 2 ^ 8 ≤ 2 ^ j := Nat.pow_le_pow_right (by norm_num) (by omega)
        omega

/-! ## C1: the interrupt dispatch protocol -/

/-- C1: at the start of a cycle with byte-range IM and IS and a sane
stack pointer: if IE is 0 no interrupt is serviced; with IE on and
`masked = IM & IS` zero, none is serviced either; otherwise exactly one
line i is serviced — the lowest set bit of masked, necessarily enabled
in IM (a line whose IM bit is 0 is never serviced even when its IS bit
is 1) — and servicing clears IE, clears exactly bit i of IS, pushes PC,
FL and registers 0..6 in that index order onto the stack (register 6
holding the already-cleared status), and vectors PC to the byte stored
at 0xF8 + i. -/
theorem c1_interrupt_dispatch (s : CPU) (im is0 sp r0 r1 r2 r3 r4 : Int)
    (hreg : s.reg.length = 8) (hram : s.ram.length = 256)
    (him : pyGet s.reg 5 = some im) (his : pyGet s.reg 6 = some is0)
    (hsp : pyGet s.reg 7 = some sp)
    (hr0 : pyGet s.reg 0 = some r0) (hr1 : pyGet s.reg 1 = some r1)
    (hr2 : pyGet s.reg 2 = some r2) (hr3 : pyGet s.reg 3 = some r3)
    (hr4 : pyGet s.reg 4 = some r4)
    (h9 : 9 ≤ sp) (h248 : sp ≤ 248)
    (him0 : 0 ≤ im) (him255 : im ≤ 255) (his0 : 0 ≤ is0) (his255 : is0 ≤ 255) :
    (s.ie = 0 → s.handle_interrupts = .ok s) ∧
    (¬ s.ie = 0 → Int.land im is0 = 0 → s.handle_interrupts = .ok s) ∧
    (¬ s.ie = 0 → Int.land im is0 ≠ 0 →
      ∃ i : Nat, i < 8 ∧
        Int.testBit (Int.land im is0) i = true ∧
        (∀ j : Nat, j < i → Int.testBit (Int.land im is0) j = false) ∧
        Int.testBit im i = true ∧ Int.testBit is0 i = true ∧
        ∃ vec s', s.ram[248 + i]? = some vec ∧ s.handle_interrupts = .ok s' ∧
          s'.ie = 0 ∧ s'.pc = vec ∧ s'.fl = s.fl ∧ s'.halted = s.halted ∧
          pyGet s'.reg 7 = some (sp - 9) ∧
          (∃ is1, pyGet s'.reg 6 = some is1 ∧ is1.testBit i = false ∧
            ∀ j : Nat, j ≠ i → is1.testBit j = is0.testBit j) ∧
          pyGet s'.reg 5 = some im ∧
          (∀ k : Nat, k < 5 → pyGet s'.reg (k : Int) = pyGet s.reg (k : Int)) ∧
          s'.ram[(sp - 1).toNat]? = some s.pc ∧
          s'.ram[(sp - 2).toNat]? = some s.fl ∧
          s'.ram[(sp - 3).toNat]? = some r0 ∧
          s'.ram[(sp - 4).toNat]? = some r1 ∧
          s'.ram[(sp - 5).toNat]? = some r2 ∧
          s'.ram[(sp - 6).toNat]? = some r3 ∧
          s'.ram[(sp - 7).toNat]? = some r4 ∧
          s'.ram[(sp - 8).toNat]? = some im ∧
          s'.ram[(sp - 9).toNat]? = pyGet s'.reg 6) := by
  refine ⟨fun h0 => ?_, fun hie hz => ?_, fun hie hmnz => ?_⟩
  · unfold CPU.handle_interrupts
    rw [if_pos h0]
  · unfold CPU.handle_interrupts
    rw [if_neg hie]
    have hn : CPU.first_bit (Int.land im is0) = none := by rw [hz]; decide
    simp only [him, his, hn]
  · have hm0 : 0 ≤ Int.land im is0 := land_nonneg_of_nonneg him0 his0
    have hm255 : Int.land im is0 ≤ 255 := by
      obtain ⟨m, hmeq⟩ : ∃ m : Nat, im = (m : Int) :=
        ⟨im.toNat, (Int.toNat_of_nonneg him0).symm⟩
      obtain ⟨n, hneq⟩ : ∃ n : Nat, is0 = (n : Int) :=
        ⟨is0.toNat, (Int.toNat_of_nonneg his0).symm⟩
      subst hmeq hneq
      show (((m &&& n : Nat) : Nat) : Int) ≤ 255
      have hand : (m &&& n) ≤ m := Nat.and_le_left
      have hmb : m ≤ 255 := by exact_mod_cast him255
      have hb : (m &&& n) ≤ 255 := le_trans hand hmb
      exact_mod_cast hb
    obtain ⟨i, hfb⟩ := first_bit_isSome hm0 hm255 hmnz
    have hi8 := first_bit_lt hfb
    obtain ⟨hset, hlow⟩ := first_bit_lowest hfb
    have hmaskbit : Int.testBit (Int.land im is0) i = true :=
      (land_two_pow_ne_zero hm0 i).mp hset
    have hbits := hmaskbit
    rw [Int.testBit_land, Bool.and_eq_true] at hbits
    obtain ⟨vec, hvec, hrun⟩ := dispatch_spec s im is0 sp i
      (Int.land is0 (Int.lnot ((2 : Int) ^ i))) r0 r1 r2 r3 r4 hreg hram hie him his hsp
      hr0 hr1 hr2 hr3 hr4 h9 h248 hfb hi8 rfl
    have hRlen : (s.reg.set 6 (Int.land is0 (Int.lnot ((2 : Int) ^ i)))).length = 8 := by
      simp [List.length_set, hreg]
    have him5 : s.reg[(5 : Nat)]? = some im := by
      have h := him
      rw [pyGet_of_nonneg (by norm_num) (by rw [hreg]; norm_num)] at h
      exact h
    have hreg6v : pyGet ((s.reg.set 6 (Int.land is0 (Int.lnot ((2 : Int) ^ i)))).set 7 (sp - 9)) 6 =
        some (Int.land is0 (Int.lnot ((2 : Int) ^ i))) := by
      rw [pyGet_of_nonneg (by norm_num) (by simp [List.length_set, hreg])]
      show ((s.reg.set 6 (Int.land is0 (Int.lnot ((2 : Int) ^ i)))).set 7 (sp - 9))[(6 : Nat)]? = _
      rw [List.getElem?_set_ne (by omega)]
      exact List.getElem?_set_self (by omega)
    refine ⟨i, hi8, hmaskbit, ?_, hbits.1, hbits.2, vec, _, hvec, hrun, rfl, rfl, rfl, rfl,
      pyGet_set7 hRlen (sp - 9), ⟨_, hreg6v, ?_, ?_⟩, ?_, ?_, ?_, ?_, ?_, ?_, ?_, ?_, ?_, ?_, ?_⟩
    · intro j hj
      have hzj := hlow j hj
      cases hb : (Int.land im is0).testBit j
      · rfl
      · exact absurd hzj ((land_two_pow_ne_zero hm0 j).mpr hb)
    · rw [clear_bit_testBit]
      simp
    · intro j hj
      rw [clear_bit_testBit]
      simp [Ne.symm hj]
    · rw [pyGet_of_nonneg (by norm_num) (by simp [List.length_set, hreg])]
      show ((s.reg.set 6 (Int.land is0 (Int.lnot ((2 : Int) ^ i)))).set 7 (sp - 9))[(5 : Nat)]? = some im
      rw [List.getElem?_set_ne (by omega), List.getElem?_set_ne (by omega)]
      exact him5
    · intro k hk
      rw [pyGet_of_nonneg (Int.natCast_nonneg k) (by simp only [List.length_set, hreg]; omega),
        pyGet_of_nonneg (Int.natCast_nonneg k) (by rw [hreg]; omega)]
      show ((s.reg.set 6 (Int.land is0 (Int.lnot ((2 : Int) ^ i)))).set 7 (sp - 9))[((k : Int)).toNat]? = _
      rw [List.getElem?_set_ne (by omega), List.getElem?_set_ne (by omega)]
    · show _ = _
      rw [List.getElem?_set_ne (by omega)]
      rw [List.getElem?_set_ne (by omega)]
      rw [List.getElem?_set_ne (by omega)]
      rw [List.getElem?_set_ne (by omega)]
      rw [List.getElem?_set_ne (by omega)]
      rw [List.getElem?_set_ne (by omega)]
      rw [List.getElem?_set_ne (by omega)]
      rw [List.getElem?_set_ne (by omega)]
      exact List.getElem?_set_self (by simp only [List.length_set, hram]; omega)
    · show _ = _
      rw [List.getElem?_set_ne (by omega)]
      rw [List.getElem?_set_ne (by omega)]
      rw [List.getElem?_set_ne (by omega)]
      rw [List.getElem?_set_ne (by omega)]
      rw [List.getElem?_set_ne (by omega)]
      rw [List.getElem?_set_ne (by omega)]
      rw [List.getElem?_set_ne (by omega)]
      exact List.getElem?_set_self (by simp only [List.length_set, hram]; omega)
    · show _ = _
      rw [List.getElem?_set_ne (by omega)]
      rw [List.getElem?_set_ne (by omega)]
      rw [List.getElem?_set_ne (by omega)]
      rw [List.getElem?_set_ne (by omega)]
      rw [List.getElem?_set_ne (by omega)]
      rw [List.getElem?_set_ne (by omega)]
      exact List.getElem?_set_self (by simp only [List.length_set, hram]; omega)
    · show _ = _
      rw [List.getElem?_set_ne (by omega)]
      rw [List.getElem?_set_ne (by omega)]
      rw [List.getElem?_set_ne (by omega)]
      rw [List.getElem?_set_ne (by omega)]
      rw [List.getElem?_set_ne (by omega)]
      exact List.getElem?_set_self (by simp only [List.length_set, hram]; omega)
    · show _ = _
      rw [List.getElem?_set_ne (by omega)]
      rw [List.getElem?_set_ne (by omega)]
      rw [List.getElem?_set_ne (by omega)]
      rw [List.getElem?_set_ne (by omega)]
      exact List.getElem?_set_self (by simp only [List.length_set, hram]; omega)
    · show _ = _
      rw [List.getElem?_set_ne (by omega)]
      rw [List.getElem?_set_ne (by omega)]
      rw [List.getElem?_set_ne (by omega)]
      exact List.getElem?_set_self (by simp only [List.length_set, hram]; omega)
    · show _ = _
      rw [List.getElem?_set_ne (by omega)]
      rw [List.getElem?_set_ne (by omega)]
      exact List.getElem?_set_self (by simp only [List.length_set, hram]; omega)
    · show _ = _
      rw [List.getElem?_set_ne (by omega)]
      exact List.getElem?_set_self (by simp only [List.length_set, hram]; omega)
    · show _ = _
      rw [hreg6v]
      exact List.getElem?_set_self (by simp only [List.length_set, hram]; omega)

/-- Witness for C1 at a concrete state: IE on, IM = IS = 1, SP = 244,
vector 99 at 0xF8. -/
theorem c1_interrupt_dispatch_witness :
    (intrInput.ie = 0 → intrInput.handle_interrupts = .ok intrInput) ∧
    (¬ intrInput.ie = 0 → Int.land 1 1 = 0 → intrInput.handle_interrupts = .ok intrInput) ∧
    (¬ intrInput.ie = 0 → Int.land 1 1 ≠ 0 →
      ∃ i : Nat, i < 8 ∧
        Int.testBit (Int.land 1 1) i = true ∧
        (∀ j : Nat, j < i → Int.testBit (Int.land 1 1) j = false) ∧
        Int.testBit 1 i = true ∧ Int.testBit 1 i = true ∧
        ∃ vec s', intrInput.ram[248 + i]? = some vec ∧
          intrInput.handle_interrupts = .ok s' ∧
          s'.ie = 0 ∧ s'.pc = vec ∧ s'.fl = intrInput.fl ∧ s'.halted = intrInput.halted ∧
          pyGet s'.reg 7 = some ((244 : Int) - 9) ∧
          (∃ is1, pyGet s'.reg 6 = some is1 ∧ is1.testBit i = false ∧
            ∀ j : Nat, j ≠ i → is1.testBit j = Int.testBit 1 j) ∧
          pyGet s'.reg 5 = some 1 ∧
          (∀ k : Nat, k < 5 → pyGet s'.reg (k : Int) = pyGet intrInput.reg (k : Int)) ∧
          s'.ram[((244 : Int) - 1).toNat]? = some intrInput.pc ∧
          s'.ram[((244 : Int) - 2).toNat]? = some intrInput.fl ∧
          s'.ram[((244 : Int) - 3).toNat]? = some 10 ∧
          s'.ram[((244 : Int) - 4).toNat]? = some 11 ∧
          s'.ram[((244 : Int) - 5).toNat]? = some 12 ∧
          s'.ram[((244 : Int) - 6).toNat]? = some 13 ∧
          s'.ram[((244 : Int) - 7).toNat]? = some 14 ∧
          s'.ram[((244 : Int) - 8).toNat]? = some 1 ∧
          s'.ram[((244 : Int) - 9).toNat]? = pyGet s'.reg 6) :=
  c1_interrupt_dispatch intrInput 1 1 244 10 11 12 13 14 rfl rfl rfl rfl rfl rfl rfl rfl rfl rfl
    (by norm_num) (by norm_num) (by norm_num) (by norm_num) (by norm_num) (by norm_num)

/-! ## C2: interrupt save and restore -/

/-- Clearing the lowest-bit mask on an IS value of 1: `1 & ~(1 << 0)` is 0.
(`Nat.ldiff` has no kernel acceleration, so this is proved through testBit
extensionality rather than by evaluation.) -/
theorem land_one_lnot_pow0 : Int.land 1 (Int.lnot ((2 : Int) ^ 0)) = 0 := by
  show Int.ofNat (Nat.ldiff 1 1) = 0
  have h : Nat.ldiff 1 1 = 0 := by
    apply Nat.eq_of_testBit_eq
    intro j
    simp [Nat.testBit_ldiff]
  rw [h]
  rfl

set_option maxHeartbeats 4000000 in
/-- C2 (amended): from any state where a dispatch fires (IE on, line i the
lowest set bit of IM & IS, byte-sane SP), running the dispatch followed by
IRET with the stack untouched in between restores PC, FL, SP and registers
0 through 5 exactly and re-enables IE — but register 6 (IS) comes back as
`is1`, the value with the serviced bit already cleared, not its
pre-interrupt value: the dispatch clears the bit before pushing register 6,
so the round trip is exact on every field except IS. -/
theorem c2_iret_round_trip (s : CPU) (im is0 sp : Int) (i : Nat) (is1 : Int)
    (r0 r1 r2 r3 r4 : Int)
    (hreg : s.reg.length = 8) (hram : s.ram.length = 256)
    (hie : ¬ s.ie = 0)
    (him : pyGet s.reg 5 = some im) (his : pyGet s.reg 6 = some is0)
    (hsp : pyGet s.reg 7 = some sp)
    (hr0 : pyGet s.reg 0 = some r0) (hr1 : pyGet s.reg 1 = some r1)
    (hr2 : pyGet s.reg 2 = some r2) (hr3 : pyGet s.reg 3 = some r3)
    (hr4 : pyGet s.reg 4 = some r4)
    (h9 : 9 ≤ sp) (h248 : sp ≤ 248)
    (hfb : CPU.first_bit (Int.land im is0) = some i) (hi8 : i < 8)
    (his1 : Int.land is0 (Int.lnot ((2 : Int) ^ i)) = is1) :
    ∃ s2, (s.handle_interrupts.bind fun s1 => s1.op_iret 0 0) = .ok s2 ∧
      s2.pc = s.pc ∧ s2.fl = s.fl ∧ s2.ie = 1 ∧
      pyGet s2.reg 7 = some sp ∧
      pyGet s2.reg 0 = some r0 ∧ pyGet s2.reg 1 = some r1 ∧
      pyGet s2.reg 2 = some r2 ∧ pyGet s2.reg 3 = some r3 ∧
      pyGet s2.reg 4 = some r4 ∧ pyGet s2.reg 5 = some im ∧
      pyGet s2.reg 6 = some is1 ∧
      is1.testBit i = false ∧
      (∀ j : Nat, j ≠ i → is1.testBit j = is0.testBit j) := by
  obtain ⟨vec, hvec, hD⟩ := dispatch_spec s im is0 sp i is1 r0 r1 r2 r3 r4 hreg hram hie
    him his hsp hr0 hr1 hr2 hr3 hr4 h9 h248 hfb hi8 his1
  have hm9 : (((((((((s.ram.set (sp - 1).toNat s.pc).set (sp - 2).toNat s.fl).set (sp - 3).toNat r0).set (sp - 4).toNat r1).set (sp - 5).toNat r2).set (sp - 6).toNat r3).set (sp - 7).toNat r4).set (sp - 8).toNat im).set (sp - 9).toNat is1)[(sp - 9).toNat]? = some is1 := by
    exact List.getElem?_set_self (by simp only [List.length_set, hram]; omega)
  have hm8 : (((((((((s.ram.set (sp - 1).toNat s.pc).set (sp - 2).toNat s.fl).set (sp - 3).toNat r0).set (sp - 4).toNat r1).set (sp - 5).toNat r2).set (sp - 6).toNat r3).set (sp - 7).toNat r4).set (sp - 8).toNat im).set (sp - 9).toNat is1)[(sp - 8).toNat]? = some im := by
    rw [List.getElem?_set_ne (by omega)]
    exact List.getElem?_set_self (by simp only [List.length_set, hram]; omega)
  have hm7 : (((((((((s.ram.set (sp - 1).toNat s.pc).set (sp - 2).toNat s.fl).set (sp - 3).toNat r0).set (sp - 4).toNat r1).set (sp - 5).toNat r2).set (sp - 6).toNat r3).set (sp - 7).toNat r4).set (sp - 8).toNat im).set (sp - 9).toNat is1)[(sp - 7).toNat]? = some r4 := by
    rw [List.getElem?_set_ne (by omega), List.getElem?_set_ne (by omega)]
    exact List.getElem?_set_self (by simp only [List.length_set, hram]; omega)
  have hm6 : (((((((((s.ram.set (sp - 1).toNat s.pc).set (sp - 2).toNat s.fl).set (sp - 3).toNat r0).set (sp - 4).toNat r1).set (sp - 5).toNat r2).set (sp - 6).toNat r3).set (sp - 7).toNat r4).set (sp - 8).toNat im).set (sp - 9).toNat is1)[(sp - 6).toNat]? = some r3 := by
    rw [List.getElem?_set_ne (by omega), List.getElem?_set_ne (by omega), List.getElem?_set_ne (by omega)]
    exact List.getElem?_set_self (by simp only [List.length_set, hram]; omega)
  have hm5 : (((((((((s.ram.set (sp - 1).toNat s.pc).set (sp - 2).toNat s.fl).set (sp - 3).toNat r0).set (sp - 4).toNat r1).set (sp - 5).toNat r2).set (sp - 6).toNat r3).set (sp - 7).toNat r4).set (sp - 8).toNat im).set (sp - 9).toNat is1)[(sp - 5).toNat]? = some r2 := by
    rw [List.getElem?_set_ne (by omega), List.getElem?_set_ne (by omega), List.getElem?_set_ne (by omega), List.getElem?_set_ne (by omega)]
    exact List.getElem?_set_self (by simp only [List.length_set, hram]; omega)
  have hm4 : (((((((((s.ram.set (sp - 1).toNat s.pc).set (sp - 2).toNat s.fl).set (sp - 3).toNat r0).set (sp - 4).toNat r1).set (sp - 5).toNat r2).set (sp - 6).toNat r3).set (sp - 7).toNat r4).set (sp - 8).toNat im).set (sp - 9).toNat is1)[(sp - 4).toNat]? = some r1 := by
    rw [List.getElem?_set_ne (by omega), List.getElem?_set_ne (by omega), List.getElem?_set_ne (by omega), List.getElem?_set_ne (by omega), List.getElem?_set_ne (by omega)]
    exact List.getElem?_set_self (by simp only [List.length_set, hram]; omega)
  have hm3 : (((((((((s.ram.set (sp - 1).toNat s.pc).set (sp - 2).toNat s.fl).set (sp - 3).toNat r0).set (sp - 4).toNat r1).set (sp - 5).toNat r2).set (sp - 6).toNat r3).set (sp - 7).toNat r4).set (sp - 8).toNat im).set (sp - 9).toNat is1)[(sp - 3).toNat]? = some r0 := by
    rw [List.getElem?_set_ne (by omega), List.getElem?_set_ne (by omega), List.getElem?_set_ne (by omega), List.getElem?_set_ne (by omega), List.getElem?_set_ne (by omega), List.getElem?_set_ne (by omega)]
    exact List.getElem?_set_self (by simp only [List.length_set, hram]; omega)
  have hm2 : (((((((((s.ram.set (sp - 1).toNat s.pc).set (sp - 2).toNat s.fl).set (sp - 3).toNat r0).set (sp - 4).toNat r1).set (sp - 5).toNat r2).set (sp - 6).toNat r3).set (sp - 7).toNat r4).set (sp - 8).toNat im).set (sp - 9).toNat is1)[(sp - 2).toNat]? = some s.fl := by
    rw [List.getElem?_set_ne (by omega), List.getElem?_set_ne (by omega), List.getElem?_set_ne (by omega), List.getElem?_set_ne (by omega), List.getElem?_set_ne (by omega), List.getElem?_set_ne (by omega), List.getElem?_set_ne (by omega)]
    exact List.getElem?_set_self (by simp only [List.length_set, hram]; omega)
  have hm1 : (((((((((s.ram.set (sp - 1).toNat s.pc).set (sp - 2).toNat s.fl).set (sp - 3).toNat r0).set (sp - 4).toNat r1).set (sp - 5).toNat r2).set (sp - 6).toNat r3).set (sp - 7).toNat r4).set (sp - 8).toNat im).set (sp - 9).toNat is1)[(sp - 1).toNat]? = some s.pc := by
    rw [List.getElem?_set_ne (by omega), List.getElem?_set_ne (by omega), List.getElem?_set_ne (by omega), List.getElem?_set_ne (by omega), List.getElem?_set_ne (by omega), List.getElem?_set_ne (by omega), List.getElem?_set_ne (by omega), List.getElem?_set_ne (by omega)]
    exact List.getElem?_set_self (by simp only [List.length_set, hram]; omega)
  have hq1 := pop_value_spec ({ s with pc := vec, ie := 0, reg := ((s.reg.set 6 is1).set 7 (sp - 9)), ram := (((((((((s.ram.set (sp - 1).toNat s.pc).set (sp - 2).toNat s.fl).set (sp - 3).toNat r0).set (sp - 4).toNat r1).set (sp - 5).toNat r2).set (sp - 6).toNat r3).set (sp - 7).toNat r4).set (sp - 8).toNat im).set (sp - 9).toNat is1) }) is1 (sp - 9) (by simp only [List.length_set, hreg]) (pyGet_set7 (by simp only [List.length_set, hreg]) (sp - 9)) (by omega) (by omega) (by simp only [List.length_set, hram]) hm9
  have hb6 := reg_assign_spec ({ s with pc := vec, ie := 0, reg := (((s.reg.set 6 is1).set 7 (sp - 9)).set 7 (sp - 8)), ram := (((((((((s.ram.set (sp - 1).toNat s.pc).set (sp - 2).toNat s.fl).set (sp - 3).toNat r0).set (sp - 4).toNat r1).set (sp - 5).toNat r2).set (sp - 6).toNat r3).set (sp - 7).toNat r4).set (sp - 8).toNat im).set (sp - 9).toNat is1) }) 6 is1 (by simp only [List.length_set, hreg]) (by norm_num) (by norm_num)
  have hs2 : pyGet ((((s.reg.set 6 is1).set 7 (sp - 9)).set 7 (sp - 8)).set 6 is1) 7 = some (sp - 8) := by
    rw [pyGet_of_nonneg (by norm_num) (by simp only [List.length_set, hreg]; omega)]
    show ((((s.reg.set 6 is1).set 7 (sp - 9)).set 7 (sp - 8)).set 6 is1)[(7 : Nat)]? = some (sp - 8)
    rw [List.getElem?_set_ne (by omega)]
    exact List.getElem?_set_self (by simp only [List.length_set, hreg]; omega)
  have hq2 := pop_value_spec ({ s with pc := vec, ie := 0, reg := ((((s.reg.set 6 is1).set 7 (sp - 9)).set 7 (sp - 8)).set 6 is1), ram := (((((((((s.ram.set (sp - 1).toNat s.pc).set (sp - 2).toNat s.fl).set (sp - 3).toNat r0).set (sp - 4).toNat r1).set (sp - 5).toNat r2).set (sp - 6).toNat r3).set (sp - 7).toNat r4).set (sp - 8).toNat im).set (sp - 9).toNat is1) }) im (sp - 8) (by simp only [List.length_set, hreg]) hs2 (by omega) (by omega) (by simp only [List.length_set, hram]) hm8
  have hb5 := reg_assign_spec ({ s with pc := vec, ie := 0, reg := (((((s.reg.set 6 is1).set 7 (sp - 9)).set 7 (sp - 8)).set 6 is1).set 7 (sp - 7)), ram := (((((((((s.ram.set (sp - 1).toNat s.pc).set (sp - 2).toNat s.fl).set (sp - 3).toNat r0).set (sp - 4).toNat r1).set (sp - 5).toNat r2).set (sp - 6).toNat r3).set (sp - 7).toNat r4).set (sp - 8).toNat im).set (sp - 9).toNat is1) }) 5 im (by simp only [List.length_set, hreg]) (by norm_num) (by norm_num)
  have hs3 : pyGet ((((((s.reg.set 6 is1).set 7 (sp - 9)).set 7 (sp - 8)).set 6 is1).set 7 (sp - 7)).set 5 im) 7 = some (sp - 7) := by
    rw [pyGet_of_nonneg (by norm_num) (by simp only [List.length_set, hreg]; omega)]
    show ((((((s.reg.set 6 is1).set 7 (sp - 9)).set 7 (sp - 8)).set 6 is1).set 7 (sp - 7)).set 5 im)[(7 : Nat)]? = some (sp - 7)
    rw [List.getElem?_set_ne (by omega)]
    exact List.getElem?_set_self (by simp only [List.length_set, hreg]; omega)
  have hq3 := pop_value_spec ({ s with pc := vec, ie := 0, reg := ((((((s.reg.set 6 is1).set 7 (sp - 9)).set 7 (sp - 8)).set 6 is1).set 7 (sp - 7)).set 5 im), ram := (((((((((s.ram.set (sp - 1).toNat s.pc).set (sp - 2).toNat s.fl).set (sp - 3).toNat r0).set (sp - 4).toNat r1).set (sp - 5).toNat r2).set (sp - 6).toNat r3).set (sp - 7).toNat r4).set (sp - 8).toNat im).set (sp - 9).toNat is1) }) r4 (sp - 7) (by simp only [List.length_set, hreg]) hs3 (by omega) (by omega) (by simp only [List.length_set, hram]) hm7
  have hb4 := reg_assign_spec ({ s with pc := vec, ie := 0, reg := (((((((s.reg.set 6 is1).set 7 (sp - 9)).set 7 (sp - 8)).set 6 is1).set 7 (sp - 7)).set 5 im).set 7 (sp - 6)), ram := (((((((((s.ram.set (sp - 1).toNat s.pc).set (sp - 2).toNat s.fl).set (sp - 3).toNat r0).set (sp - 4).toNat r1).set (sp - 5).toNat r2).set (sp - 6).toNat r3).set (sp - 7).toNat r4).set (sp - 8).toNat im).set (sp - 9).toNat is1) }) 4 r4 (by simp only [List.length_set, hreg]) (by norm_num) (by norm_num)
  have hs4 : pyGet ((((((((s.reg.set 6 is1).set 7 (sp - 9)).set 7 (sp - 8)).set 6 is1).set 7 (sp - 7)).set 5 im).set 7 (sp - 6)).set 4 r4) 7 = some (sp - 6) := by
    rw [pyGet_of_nonneg (by norm_num) (by simp only [List.length_set, hreg]; omega)]
    show ((((((((s.reg.set 6 is1).set 7 (sp - 9)).set 7 (sp - 8)).set 6 is1).set 7 (sp - 7)).set 5 im).set 7 (sp - 6)).set 4 r4)[(7 : Nat)]? = some (sp - 6)
    rw [List.getElem?_set_ne (by omega)]
    exact List.getElem?_set_self (by simp only [List.length_set, hreg]; omega)
  have hq4 := pop_value_spec ({ s with pc := vec, ie := 0, reg := ((((((((s.reg.set 6 is1).set 7 (sp - 9)).set 7 (sp - 8)).set 6 is1).set 7 (sp - 7)).set 5 im).set 7 (sp - 6)).set 4 r4), ram := (((((((((s.ram.set (sp - 1).toNat s.pc).set (sp - 2).toNat s.fl).set (sp - 3).toNat r0).set (sp - 4).toNat r1).set (sp - 5).toNat r2).set (sp - 6).toNat r3).set (sp - 7).toNat r4).set (sp - 8).toNat im).set (sp - 9).toNat is1) }) r3 (sp - 6) (by simp only [List.length_set, hreg]) hs4 (by omega) (by omega) (by simp only [List.length_set, hram]) hm6
  have hb3 := reg_assign_spec ({ s with pc := vec, ie := 0, reg := (((((((((s.reg.set 6 is1).set 7 (sp - 9)).set 7 (sp - 8)).set 6 is1).set 7 (sp - 7)).set 5 im).set 7 (sp - 6)).set 4 r4).set 7 (sp - 5)), ram := (((((((((s.ram.set (sp - 1).toNat s.pc).set (sp - 2).toNat s.fl).set (sp - 3).toNat r0).set (sp - 4).toNat r1).set (sp - 5).toNat r2).set (sp - 6).toNat r3).set (sp - 7).toNat r4).set (sp - 8).toNat im).set (sp - 9).toNat is1) }) 3 r3 (by simp only [List.length_set, hreg]) (by norm_num) (by norm_num)
  have hs5 : pyGet ((((((((((s.reg.set 6 is1).set 7 (sp - 9)).set 7 (sp - 8)).set 6 is1).set 7 (sp - 7)).set 5 im).set 7 (sp - 6)).set 4 r4).set 7 (sp - 5)).set 3 r3) 7 = some (sp - 5) := by
    rw [pyGet_of_nonneg (by norm_num) (by simp only [List.length_set, hreg]; omega)]
    show ((((((((((s.reg.set 6 is1).set 7 (sp - 9)).set 7 (sp - 8)).set 6 is1).set 7 (sp - 7)).set 5 im).set 7 (sp - 6)).set 4 r4).set 7 (sp - 5)).set 3 r3)[(7 : Nat)]? = some (sp - 5)
    rw [List.getElem?_set_ne (by omega)]
    exact List.getElem?_set_self (by simp only [List.length_set, hreg]; omega)
  have hq5 := pop_value_spec ({ s with pc := vec, ie := 0, reg := ((((((((((s.reg.set 6 is1).set 7 (sp - 9)).set 7 (sp - 8)).set 6 is1).set 7 (sp - 7)).set 5 im).set 7 (sp - 6)).set 4 r4).set 7 (sp - 5)).set 3 r3), ram := (((((((((s.ram.set (sp - 1).toNat s.pc).set (sp - 2).toNat s.fl).set (sp - 3).toNat r0).set (sp - 4).toNat r1).set (sp - 5).toNat r2).set (sp - 6).toNat r3).set (sp - 7).toNat r4).set (sp - 8).toNat im).set (sp - 9).toNat is1) }) r2 (sp - 5) (by simp only [List.length_set, hreg]) hs5 (by omega) (by omega) (by simp only [List.length_set, hram]) hm5
  have hb2 := reg_assign_spec ({ s with pc := vec, ie := 0, reg := (((((((((((s.reg.set 6 is1).set 7 (sp - 9)).set 7 (sp - 8)).set 6 is1).set 7 (sp - 7)).set 5 im).set 7 (sp - 6)).set 4 r4).set 7 (sp - 5)).set 3 r3).set 7 (sp - 4)), ram := (((((((((s.ram.set (sp - 1).toNat s.pc).set (sp - 2).toNat s.fl).set (sp - 3).toNat r0).set (sp - 4).toNat r1).set (sp - 5).toNat r2).set (sp - 6).toNat r3).set (sp - 7).toNat r4).set (sp - 8).toNat im).set (sp - 9).toNat is1) }) 2 r2 (by simp only [List.length_set, hreg]) (by norm_num) (by norm_num)
  have hs6 : pyGet ((((((((((((s.reg.set 6 is1).set 7 (sp - 9)).set 7 (sp - 8)).set 6 is1).set 7 (sp - 7)).set 5 im).set 7 (sp - 6)).set 4 r4).set 7 (sp - 5)).set 3 r3).set 7 (sp - 4)).set 2 r2) 7 = some (sp - 4) := by
    rw [pyGet_of_nonneg (by norm_num) (by simp only [List.length_set, hreg]; omega)]
    show ((((((((((((s.reg.set 6 is1).set 7 (sp - 9)).set 7 (sp - 8)).set 6 is1).set 7 (sp - 7)).set 5 im).set 7 (sp - 6)).set 4 r4).set 7 (sp - 5)).set 3 r3).set 7 (sp - 4)).set 2 r2)[(7 : Nat)]? = some (sp - 4)
    rw [List.getElem?_set_ne (by omega)]
    exact List.getElem?_set_self (by simp only [List.length_set, hreg]; omega)
  have hq6 := pop_value_spec ({ s with pc := vec, ie := 0, reg := ((((((((((((s.reg.set 6 is1).set 7 (sp - 9)).set 7 (sp - 8)).set 6 is1).set 7 (sp - 7)).set 5 im).set 7 (sp - 6)).set 4 r4).set 7 (sp - 5)).set 3 r3).set 7 (sp - 4)).set 2 r2), ram := (((((((((s.ram.set (sp - 1).toNat s.pc).set (sp - 2).toNat s.fl).set (sp - 3).toNat r0).set (sp - 4).toNat r1).set (sp - 5).toNat r2).set (sp - 6).toNat r3).set (sp - 7).toNat r4).set (sp - 8).toNat im).set (sp - 9).toNat is1) }) r1 (sp - 4) (by simp only [List.length_set, hreg]) hs6 (by omega) (by omega) (by simp only [List.length_set, hram]) hm4
  have hb1 := reg_assign_spec ({ s with pc := vec, ie := 0, reg := (((((((((((((s.reg.set 6 is1).set 7 (sp - 9)).set 7 (sp - 8)).set 6 is1).set 7 (sp - 7)).set 5 im).set 7 (sp - 6)).set 4 r4).set 7 (sp - 5)).set 3 r3).set 7 (sp - 4)).set 2 r2).set 7 (sp - 3)), ram := (((((((((s.ram.set (sp - 1).toNat s.pc).set (sp - 2).toNat s.fl).set (sp - 3).toNat r0).set (sp - 4).toNat r1).set (sp - 5).toNat r2).set (sp - 6).toNat r3).set (sp - 7).toNat r4).set (sp - 8).toNat im).set (sp - 9).toNat is1) }) 1 r1 (by simp only [List.length_set, hreg]) (by norm_num) (by norm_num)
  have hs7 : pyGet ((((((((((((((s.reg.set 6 is1).set 7 (sp - 9)).set 7 (sp - 8)).set 6 is1).set 7 (sp - 7)).set 5 im).set 7 (sp - 6)).set 4 r4).set 7 (sp - 5)).set 3 r3).set 7 (sp - 4)).set 2 r2).set 7 (sp - 3)).set 1 r1) 7 = some (sp - 3) := by
    rw [pyGet_of_nonneg (by norm_num) (by simp only [List.length_set, hreg]; omega)]
    show ((((((((((((((s.reg.set 6 is1).set 7 (sp - 9)).set 7 (sp - 8)).set 6 is1).set 7 (sp - 7)).set 5 im).set 7 (sp - 6)).set 4 r4).set 7 (sp - 5)).set 3 r3).set 7 (sp - 4)).set 2 r2).set 7 (sp - 3)).set 1 r1)[(7 : Nat)]? = some (sp - 3)
    rw [List.getElem?_set_ne (by omega)]
    exact List.getElem?_set_self (by simp only [List.length_set, hreg]; omega)
  have hq7 := pop_value_spec ({ s with pc := vec, ie := 0, reg := ((((((((((((((s.reg.set 6 is1).set 7 (sp - 9)).set 7 (sp - 8)).set 6 is1).set 7 (sp - 7)).set 5 im).set 7 (sp - 6)).set 4 r4).set 7 (sp - 5)).set 3 r3).set 7 (sp - 4)).set 2 r2).set 7 (sp - 3)).set 1 r1), ram := (((((((((s.ram.set (sp - 1).toNat s.pc).set (sp - 2).toNat s.fl).set (sp - 3).toNat r0).set (sp - 4).toNat r1).set (sp - 5).toNat r2).set (sp - 6).toNat r3).set (sp - 7).toNat r4).set (sp - 8).toNat im).set (sp - 9).toNat is1) }) r0 (sp - 3) (by simp only [List.length_set, hreg]) hs7 (by omega) (by omega) (by simp only [List.length_set, hram]) hm3
  have hb0 := reg_assign_spec ({ s with pc := vec, ie := 0, reg := (((((((((((((((s.reg.set 6 is1).set 7 (sp - 9)).set 7 (sp - 8)).set 6 is1).set 7 (sp - 7)).set 5 im).set 7 (sp - 6)).set 4 r4).set 7 (sp - 5)).set 3 r3).set 7 (sp - 4)).set 2 r2).set 7 (sp - 3)).set 1 r1).set 7 (sp - 2)), ram := (((((((((s.ram.set (sp - 1).toNat s.pc).set (sp - 2).toNat s.fl).set (sp - 3).toNat r0).set (sp - 4).toNat r1).set (sp - 5).toNat r2).set (sp - 6).toNat r3).set (sp - 7).toNat r4).set (sp - 8).toNat im).set (sp - 9).toNat is1) }) 0 r0 (by simp only [List.length_set, hreg]) (by norm_num) (by norm_num)
  have hs8 : pyGet ((((((((((((((((s.reg.set 6 is1).set 7 (sp - 9)).set 7 (sp - 8)).set 6 is1).set 7 (sp - 7)).set 5 im).set 7 (sp - 6)).set 4 r4).set 7 (sp - 5)).set 3 r3).set 7 (sp - 4)).set 2 r2).set 7 (sp - 3)).set 1 r1).set 7 (sp - 2)).set 0 r0) 7 = some (sp - 2) := by
    rw [pyGet_of_nonneg (by norm_num) (by simp only [List.length_set, hreg]; omega)]
    show ((((((((((((((((s.reg.set 6 is1).set 7 (sp - 9)).set 7 (sp - 8)).set 6 is1).set 7 (sp - 7)).set 5 im).set 7 (sp - 6)).set 4 r4).set 7 (sp - 5)).set 3 r3).set 7 (sp - 4)).set 2 r2).set 7 (sp - 3)).set 1 r1).set 7 (sp - 2)).set 0 r0)[(7 : Nat)]? = some (sp - 2)
    rw [List.getElem?_set_ne (by omega)]
    exact List.getElem?_set_self (by simp only [List.length_set, hreg]; omega)
  have hq8 := pop_value_spec ({ s with pc := vec, ie := 0, reg := ((((((((((((((((s.reg.set 6 is1).set 7 (sp - 9)).set 7 (sp - 8)).set 6 is1).set 7 (sp - 7)).set 5 im).set 7 (sp - 6)).set 4 r4).set 7 (sp - 5)).set 3 r3).set 7 (sp - 4)).set 2 r2).set 7 (sp - 3)).set 1 r1).set 7 (sp - 2)).set 0 r0), ram := (((((((((s.ram.set (sp - 1).toNat s.pc).set (sp - 2).toNat s.fl).set (sp - 3).toNat r0).set (sp - 4).toNat r1).set (sp - 5).toNat r2).set (sp - 6).toNat r3).set (sp - 7).toNat r4).set (sp - 8).toNat im).set (sp - 9).toNat is1) }) s.fl (sp - 2) (by simp only [List.length_set, hreg]) hs8 (by omega) (by omega) (by simp only [List.length_set, hram]) hm2
  have hq9 := pop_value_spec ({ s with pc := vec, ie := 0, reg := (((((((((((((((((s.reg.set 6 is1).set 7 (sp - 9)).set 7 (sp - 8)).set 6 is1).set 7 (sp - 7)).set 5 im).set 7 (sp - 6)).set 4 r4).set 7 (sp - 5)).set 3 r3).set 7 (sp - 4)).set 2 r2).set 7 (sp - 3)).set 1 r1).set 7 (sp - 2)).set 0 r0).set 7 (sp - 1)), ram := (((((((((s.ram.set (sp - 1).toNat s.pc).set (sp - 2).toNat s.fl).set (sp - 3).toNat r0).set (sp - 4).toNat r1).set (sp - 5).toNat r2).set (sp - 6).toNat r3).set (sp - 7).toNat r4).set (sp - 8).toNat im).set (sp - 9).toNat is1) }) s.pc (sp - 1) (by simp only [List.length_set, hreg]) (pyGet_set7 (by simp only [List.length_set, hreg]) (sp - 1)) (by omega) (by omega) (by simp only [List.length_set, hram]) hm1
  refine ⟨{ s with ie := 1, reg := ((((((((((((((((((s.reg.set 6 is1).set 7 (sp - 9)).set 7 (sp - 8)).set 6 is1).set 7 (sp - 7)).set 5 im).set 7 (sp - 6)).set 4 r4).set 7 (sp - 5)).set 3 r3).set 7 (sp - 4)).set 2 r2).set 7 (sp - 3)).set 1 r1).set 7 (sp - 2)).set 0 r0).set 7 (sp - 1)).set 7 sp), ram := (((((((((s.ram.set (sp - 1).toNat s.pc).set (sp - 2).toNat s.fl).set (sp - 3).toNat r0).set (sp - 4).toNat r1).set (sp - 5).toNat r2).set (sp - 6).toNat r3).set (sp - 7).toNat r4).set (sp - 8).toNat im).set (sp - 9).toNat is1) }, ?_, rfl, rfl, rfl,
    pyGet_set7 (by simp only [List.length_set, hreg]) sp, ?_, ?_, ?_, ?_, ?_, ?_, ?_, ?_, ?_⟩
  · rw [hD]
    show CPU.op_iret ({ s with pc := vec, ie := 0, reg := ((s.reg.set 6 is1).set 7 (sp - 9)), ram := (((((((((s.ram.set (sp - 1).toNat s.pc).set (sp - 2).toNat s.fl).set (sp - 3).toNat r0).set (sp - 4).toNat r1).set (sp - 5).toNat r2).set (sp - 6).toNat r3).set (sp - 7).toNat r4).set (sp - 8).toNat im).set (sp - 9).toNat is1) }) 0 0 = _
    unfold CPU.op_iret
    simp only [hq1]
    rw [show sp - 9 + 1 = sp - 8 from by ring]
    simp only [hb6, show ((6 : Int)).toNat = 6 from rfl]
    simp only [hq2]
    rw [show sp - 8 + 1 = sp - 7 from by ring]
    simp only [hb5, show ((5 : Int)).toNat = 5 from rfl]
    simp only [hq3]
    rw [show sp - 7 + 1 = sp - 6 from by ring]
    simp only [hb4, show ((4 : Int)).toNat = 4 from rfl]
    simp only [hq4]
    rw [show sp - 6 + 1 = sp - 5 from by ring]
    simp only [hb3, show ((3 : Int)).toNat = 3 from rfl]
    simp only [hq5]
    rw [show sp - 5 + 1 = sp - 4 from by ring]
    simp only [hb2, show ((2 : Int)).toNat = 2 from rfl]
    simp only [hq6]
    rw [show sp - 4 + 1 = sp - 3 from by ring]
    simp only [hb1, show ((1 : Int)).toNat = 1 from rfl]
    simp only [hq7]
    rw [show sp - 3 + 1 = sp - 2 from by ring]
    simp only [hb0, show ((0 : Int)).toNat = 0 from rfl]
    simp only [hq8]
    rw [show sp - 2 + 1 = sp - 1 from by ring]
    simp only [hq9]
    rw [show sp - 1 + 1 = sp from by ring]
  · rw [pyGet_of_nonneg (by norm_num) (by simp only [List.length_set, hreg]; omega)]
    show ((((((((((((((((((s.reg.set 6 is1).set 7 (sp - 9)).set 7 (sp - 8)).set 6 is1).set 7 (sp - 7)).set 5 im).set 7 (sp - 6)).set 4 r4).set 7 (sp - 5)).set 3 r3).set 7 (sp - 4)).set 2 r2).set 7 (sp - 3)).set 1 r1).set 7 (sp - 2)).set 0 r0).set 7 (sp - 1)).set 7 sp)[(0 : Nat)]? = some r0
    rw [List.getElem?_set_ne (by omega), List.getElem?_set_ne (by omega)]
    exact List.getElem?_set_self (by simp only [List.length_set, hreg]; omega)
  · rw [pyGet_of_nonneg (by norm_num) (by simp only [List.length_set, hreg]; omega)]
    show ((((((((((((((((((s.reg.set 6 is1).set 7 (sp - 9)).set 7 (sp - 8)).set 6 is1).set 7 (sp - 7)).set 5 im).set 7 (sp - 6)).set 4 r4).set 7 (sp - 5)).set 3 r3).set 7 (sp - 4)).set 2 r2).set 7 (sp - 3)).set 1 r1).set 7 (sp - 2)).set 0 r0).set 7 (sp - 1)).set 7 sp)[(1 : Nat)]? = some r1
    rw [List.getElem?_set_ne (by omega), List.getElem?_set_ne (by omega), List.getElem?_set_ne (by omega), List.getElem?_set_ne (by omega)]
    exact List.getElem?_set_self (by simp only [List.length_set, hreg]; omega)
  · rw [pyGet_of_nonneg (by norm_num) (by simp only [List.length_set, hreg]; omega)]
    show ((((((((((((((((((s.reg.set 6 is1).set 7 (sp - 9)).set 7 (sp - 8)).set 6 is1).set 7 (sp - 7)).set 5 im).set 7 (sp - 6)).set 4 r4).set 7 (sp - 5)).set 3 r3).set 7 (sp - 4)).set 2 r2).set 7 (sp - 3)).set 1 r1).set 7 (sp - 2)).set 0 r0).set 7 (sp - 1)).set 7 sp)[(2 : Nat)]? = some r2
    rw [List.getElem?_set_ne (by omega), List.getElem?_set_ne (by omega), List.getElem?_set_ne (by omega), List.getElem?_set_ne (by omega), List.getElem?_set_ne (by omega), List.getElem?_set_ne (by omega)]
    exact List.getElem?_set_self (by simp only [List.length_set, hreg]; omega)
  · rw [pyGet_of_nonneg (by norm_num) (by simp only [List.length_set, hreg]; omega)]
    show ((((((((((((((((((s.reg.set 6 is1).set 7 (sp - 9)).set 7 (sp - 8)).set 6 is1).set 7 (sp - 7)).set 5 im).set 7 (sp - 6)).set 4 r4).set 7 (sp - 5)).set 3 r3).set 7 (sp - 4)).set 2 r2).set 7 (sp - 3)).set 1 r1).set 7 (sp - 2)).set 0 r0).set 7 (sp - 1)).set 7 sp)[(3 : Nat)]? = some r3
    rw [List.getElem?_set_ne (by omega), List.getElem?_set_ne (by omega), List.getElem?_set_ne (by omega), List.getElem?_set_ne (by omega), List.getElem?_set_ne (by omega), List.getElem?_set_ne (by omega), List.getElem?_set_ne (by omega), List.getElem?_set_ne (by omega)]
    exact List.getElem?_set_self (by simp only [List.length_set, hreg]; omega)
  · rw [pyGet_of_nonneg (by norm_num) (by simp only [List.length_set, hreg]; omega)]
    show ((((((((((((((((((s.reg.set 6 is1).set 7 (sp - 9)).set 7 (sp - 8)).set 6 is1).set 7 (sp - 7)).set 5 im).set 7 (sp - 6)).set 4 r4).set 7 (sp - 5)).set 3 r3).set 7 (sp - 4)).set 2 r2).set 7 (sp - 3)).set 1 r1).set 7 (sp - 2)).set 0 r0).set 7 (sp - 1)).set 7 sp)[(4 : Nat)]? = some r4
    rw [List.getElem?_set_ne (by omega), List.getElem?_set_ne (by omega), List.getElem?_set_ne (by omega), List.getElem?_set_ne (by omega), List.getElem?_set_ne (by omega), List.getElem?_set_ne (by omega), List.getElem?_set_ne (by omega), List.getElem?_set_ne (by omega), List.getElem?_set_ne (by omega), List.getElem?_set_ne (by omega)]
    exact List.getElem?_set_self (by simp only [List.length_set, hreg]; omega)
  · rw [pyGet_of_nonneg (by norm_num) (by simp only [List.length_set, hreg]; omega)]
    show ((((((((((((((((((s.reg.set 6 is1).set 7 (sp - 9)).set 7 (sp - 8)).set 6 is1).set 7 (sp - 7)).set 5 im).set 7 (sp - 6)).set 4 r4).set 7 (sp - 5)).set 3 r3).set 7 (sp - 4)).set 2 r2).set 7 (sp - 3)).set 1 r1).set 7 (sp - 2)).set 0 r0).set 7 (sp - 1)).set 7 sp)[(5 : Nat)]? = some im
    rw [List.getElem?_set_ne (by omega), List.getElem?_set_ne (by omega), List.getElem?_set_ne (by omega), List.getElem?_set_ne (by omega), List.getElem?_set_ne (by omega), List.getElem?_set_ne (by omega), List.getElem?_set_ne (by omega), List.getElem?_set_ne (by omega), List.getElem?_set_ne (by omega), List.getElem?_set_ne (by omega), List.getElem?_set_ne (by omega), List.getElem?_set_ne (by omega)]
    exact List.getElem?_set_self (by simp only [List.length_set, hreg]; omega)
  · rw [pyGet_of_nonneg (by norm_num) (by simp only [List.length_set, hreg]; omega)]
    show ((((((((((((((((((s.reg.set 6 is1).set 7 (sp - 9)).set 7 (sp - 8)).set 6 is1).set 7 (sp - 7)).set 5 im).set 7 (sp - 6)).set 4 r4).set 7 (sp - 5)).set 3 r3).set 7 (sp - 4)).set 2 r2).set 7 (sp - 3)).set 1 r1).set 7 (sp - 2)).set 0 r0).set 7 (sp - 1)).set 7 sp)[(6 : Nat)]? = some is1
    rw [List.getElem?_set_ne (by omega), List.getElem?_set_ne (by omega), List.getElem?_set_ne (by omega), List.getElem?_set_ne (by omega), List.getElem?_set_ne (by omega), List.getElem?_set_ne (by omega), List.getElem?_set_ne (by omega), List.getElem?_set_ne (by omega), List.getElem?_set_ne (by omega), List.getElem?_set_ne (by omega), List.getElem?_set_ne (by omega), List.getElem?_set_ne (by omega), List.getElem?_set_ne (by omega), List.getElem?_set_ne (by omega)]
    exact List.getElem?_set_self (by simp only [List.length_set, hreg]; omega)
  · rw [← his1, clear_bit_testBit]
    simp
  · intro j hj
    rw [← his1, clear_bit_testBit]
    simp [Ne.symm hj]

/-- Witness for the amended C2 at a concrete state: IE on, IM = IS = 1,
SP = 244, vector 99 at 0xF8; the round trip restores everything except
register 6, which returns 0 instead of 1. -/
theorem c2_iret_round_trip_witness :
    ∃ s2, (intrInput.handle_interrupts.bind fun s1 => s1.op_iret 0 0) = .ok s2 ∧
      s2.pc = intrInput.pc ∧ s2.fl = intrInput.fl ∧ s2.ie = 1 ∧
      pyGet s2.reg 7 = some 244 ∧
      pyGet s2.reg 0 = some 10 ∧ pyGet s2.reg 1 = some 11 ∧
      pyGet s2.reg 2 = some 12 ∧ pyGet s2.reg 3 = some 13 ∧
      pyGet s2.reg 4 = some 14 ∧ pyGet s2.reg 5 = some 1 ∧
      pyGet s2.reg 6 = some 0 ∧
      Int.testBit 0 0 = false ∧
      (∀ j : Nat, j ≠ 0 → Int.testBit 0 j = Int.testBit 1 j) :=
  c2_iret_round_trip intrInput 1 1 244 0 0 10 11 12 13 14 rfl rfl (by decide)
    rfl rfl rfl rfl rfl rfl rfl rfl (by norm_num) (by norm_num) rfl (by norm_num)
    land_one_lnot_pow0

/-- The concrete dispatch step used by the C2 counterexample, obtained
from dispatch_spec at the state intrInput. -/
theorem intr_dispatch_eq :
    intrInput.handle_interrupts = .ok { intrInput with pc := 99, ie := 0, reg := (intrInput.reg.set 6 0).set 7 (244 - 9), ram := (((((((((intrInput.ram.set (244 - 1 : Int).toNat intrInput.pc).set (244 - 2 : Int).toNat intrInput.fl).set (244 - 3 : Int).toNat 10).set (244 - 4 : Int).toNat 11).set (244 - 5 : Int).toNat 12).set (244 - 6 : Int).toNat 13).set (244 - 7 : Int).toNat 14).set (244 - 8 : Int).toNat 1).set (244 - 9 : Int).toNat 0) } := by
  obtain ⟨vec, hv, hD⟩ := dispatch_spec intrInput 1 1 244 0 0 10 11 12 13 14
    rfl rfl (by decide) rfl rfl rfl rfl rfl rfl rfl rfl
    (by norm_num) (by norm_num) rfl (by norm_num) land_one_lnot_pow0
  have hv99 : intrInput.ram[248 + 0]? = some 99 := rfl
  rw [hv99] at hv
  injection hv with hv
  rw [hD, ← hv]

set_option maxHeartbeats 4000000 in
/-- C2 counterexample: the claim says the round trip restores registers 0
through 6 exactly, but dispatch clears the serviced IS bit (register 6)
before pushing, so IRET restores the cleared value: from intrInput
(IS = 1) the dispatch-then-IRET round trip leaves register 6 holding 0,
different from its pre-interrupt value. -/
theorem c2_counterexample :
    ((intrInput.handle_interrupts).bind fun s1 => s1.op_iret 0 0).map
      (fun s2 => pyGet s2.reg 6 == pyGet intrInput.reg 6) = .ok false := by
  rw [intr_dispatch_eq]
  rfl
